import Mathlib

/-!
# Verification of the turnip pipeline-state compiler (tu_pipeline.c)

A shallow embedding, in Lean 4, of the pipeline-state-to-command-stream
compiler of `src/freedreno/vulkan/tu_pipeline.c`, together with theorems
settling the specification claims about it.

Conventions of the embedding:

* Machine integers are modelled as `Nat` (all the C values involved are
  unsigned), with an explicit `% 2 ^ 32` at the points where 32-bit
  wrap-around can occur; signed 32-bit quantities (`VkOffset2D`) are `Int`.
* A command stream is a `List Dword`.  A `Dword` is one 32-bit word of the
  stream.  The numeric values of hardware register addresses and of the
  bit-packing macros (`A6XX_*`, `REG_A6XX_*`, `CP_*`) live in generated
  headers outside this translation unit and are part of the hardware's
  binary ABI (spec §6); a register-payload word is therefore modelled
  structurally as a register name (`RegTag`) applied to the list of argument
  values the source computes for the packing macro, which keeps every value
  computed by `tu_pipeline.c` itself explicit while abstracting only the
  final fixed bit-layout.
* Emitter functions that write through a `tu_cs` cursor are embedded as
  pure functions returning the list of dwords they write, in order.
* Fallible paths (`assert`) are embedded with `Except`.
-/

/-! ## Stages and stage masks

`gl_shader_stage` values `MESA_SHADER_VERTEX = 0` … `MESA_SHADER_COMPUTE = 5`
are modelled as plain `Nat` indices.  Vulkan stage bits use the same bit
positions (`VK_SHADER_STAGE_VERTEX_BIT = 1 << 0`, …,
`VK_SHADER_STAGE_COMPUTE_BIT = 1 << 5`). -/

def MESA_SHADER_VERTEX : Nat := 0

def MESA_SHADER_TESS_CTRL : Nat := 1

def MESA_SHADER_TESS_EVAL : Nat := 2

def MESA_SHADER_GEOMETRY : Nat := 3

def MESA_SHADER_FRAGMENT : Nat := 4

def MESA_SHADER_COMPUTE : Nat := 5

def MESA_SHADER_STAGES : Nat := 6

def VK_SHADER_STAGE_COMPUTE_BIT : Nat := 0x20

def VK_SHADER_STAGE_ALL_GRAPHICS : Nat := 0x1f

/-- `util_bitcount` on a 32-bit mask: the number of set bits. -/
def util_bitcount (n : Nat) : Nat :=
  ((List.range 32).filter fun b => n.testBit b).length

/-- `tu_foreach_stage`: iterate the mesa stages whose Vulkan stage bit is set
in `stages`, in ascending bit order (the macro walks the set bits with
`ffs`). -/
def tu_foreach_stage (stages : Nat) : List Nat :=
  (List.range 32).filter fun b => stages.testBit b

theorem tu_foreach_stage_length (stages : Nat) :
    (tu_foreach_stage stages).length = util_bitcount stages := rfl

/-- Helper for `util_last_bit`: structural recursion on a 32-step fuel. -/
def last_bit_aux : Nat → Nat → Nat
  | 0, _ => 0
  | fuel + 1, n => if n = 0 then 0 else last_bit_aux fuel (n / 2) + 1

/-- `util_last_bit` on a 32-bit value: index one past the highest set bit
(0 for 0). -/
def util_last_bit (n : Nat) : Nat := last_bit_aux 32 n

/-! ## Hardware enum constants

These enumerators come from the generated a6xx register headers, outside this
translation unit; their numeric values are opaque to `tu_pipeline.c`, which
only forwards them into packing macros.  They are modelled as distinct
naturals. -/

def CP_LOAD_STATE6 : Nat := 0x36

def CP_LOAD_STATE6_GEOM : Nat := 0x32

def CP_LOAD_STATE6_FRAG : Nat := 0x34

def ST6_SHADER : Nat := 0

def ST6_CONSTANTS : Nat := 1

def ST6_UBO : Nat := 2

def ST6_IBO : Nat := 3

def SS6_DIRECT : Nat := 0

def SS6_INDIRECT : Nat := 1

def SS6_BINDLESS : Nat := 2

def SB6_VS_SHADER : Nat := 0

def SB6_HS_SHADER : Nat := 1

def SB6_DS_SHADER : Nat := 2

def SB6_GS_SHADER : Nat := 3

def SB6_FS_SHADER : Nat := 4

def SB6_CS_SHADER : Nat := 5

def SB6_IBO : Nat := 6

def SB6_VS_TEX : Nat := 8

def SB6_HS_TEX : Nat := 9

def SB6_DS_TEX : Nat := 10

def SB6_GS_TEX : Nat := 11

def SB6_FS_TEX : Nat := 12

def SB6_CS_TEX : Nat := 13

/-- `tu6_stage2opcode` (tu_private.h): the `CP_LOAD_STATE6` opcode family for
a stage: the `_GEOM` opcode for geometry-pipe stages, `_FRAG` for the
fragment and compute stages. -/
def tu6_stage2opcode (stage : Nat) : Nat :=
  if stage = MESA_SHADER_FRAGMENT ∨ stage = MESA_SHADER_COMPUTE then
    CP_LOAD_STATE6_FRAG
  else CP_LOAD_STATE6_GEOM

/-- `tu6_stage2shadersb` (tu_private.h): per-stage shader state block. -/
def tu6_stage2shadersb (stage : Nat) : Nat := stage

/-- `tu6_stage2texsb` (tu_private.h): per-stage texture state block
(`SB6_VS_TEX + stage`). -/
def tu6_stage2texsb (stage : Nat) : Nat := SB6_VS_TEX + stage

def MAX_SETS : Nat := 4

def MAX_RTS : Nat := 8

def MAX_VBS : Nat := 32

def MAX_VERTEX_ATTRIBS : Nat := 32

def A6XX_TEX_CONST_DWORDS : Nat := 16

/-- `regid(r, c)` = `r * 4 + c`; `regid(63, 0)` is the invalid register. -/
def regid (r c : Nat) : Nat := r * 4 + c

def INVALID_REGID : Nat := regid 63 0

/-- `VALIDREG(r)` -/
def VALIDREG (r : Nat) : Bool := r ≠ INVALID_REGID

/-! ## Command-stream words -/

/-- Names of the hardware registers (and packet payload kinds) that
`tu_pipeline.c` writes.  The numeric addresses are external generated
constants; distinct names stand for distinct registers. -/
inductive RegTag where
  | loadState6_0
  | loadState6Addr
  | spXsCtrlReg0
  | spXsConfig
  | spXsInstrlen
  | hlsqXsCntl
  | spXsObjStart
  | hlsqInvalidateCmd
  | spCsUnknownA9B1
  | hlsqCsCntl0
  | hlsqCsUnknownB998
  | vfdControl1
  | vfdControl2
  | vfdControl3
  | vfdControl4
  | vfdControl5
  | vfdControl6
  | vpcSoCntl
  | vpcSoBufCntl
  | vpcSoNcomp
  | vpcSoProg
  | vpcVarDisable
  | spVsOutReg
  | spVsVpcDstReg
  | vpcXsPack
  | vpcXsClipCntl
  | grasXsClCntl
  | pcXsOutCntl
  | spXsPrimitiveCntl
  | vpcXsLayerCntl
  | grasXsLayerCntl
  | pcPrimidPassthru
  | vpcCntl0
  | pcTessNumVertex
  | pcHsInputSize
  | spHsUnknownA831
  | pcTessCntl
  | pcPrimitiveCntl5
  | pcPrimitiveCntl3
  | vpcUnknown9100
  | pcPrimitiveCntl6
  | pcUnknown9B07
  | spGsPrimSize
  | vpcVaryingInterpMode
  | vpcVaryingPsReplMode
  | spFsPrefetchCntl
  | spFsPrefetchCmd
  | spFsBindlessPrefetchCmd
  | hlsqControl1
  | hlsqControl2
  | hlsqControl3
  | hlsqControl4
  | hlsqControl5
  | hlsqUnknownB980
  | grasCntl
  | rbRenderControl0
  | rbRenderControl1
  | rbSampleCntl
  | grasUnknown8101
  | grasSampleCntl
  | spFsOutputCntl0
  | spFsOutputCntl1
  | spFsOutputReg
  | spFsRenderComponents
  | rbFsOutputCntl0
  | rbFsOutputCntl1
  | rbRenderComponents
  | grasSuDepthPlaneCntl
  | rbDepthPlaneCntl
  | vfdFetchStride
  | vfdDecodeInstr
  | vfdDecodeStepRate
  | vfdDestCntlInstr
  | vfdControl0
  | grasClVportXOffset
  | grasClVportXScale
  | grasClVportYOffset
  | grasClVportYScale
  | grasClVportZOffset
  | grasClVportZScale
  | grasScViewportScissorTl
  | grasScViewportScissorBr
  | grasClGuardbandClipAdj
  | grasClZClampMin
  | grasClZClampMax
  | rbZClampMin
  | rbZClampMax
  | grasScScreenScissorTl
  | grasScScreenScissorBr
  | grasSampleConfig
  | grasSampleLocation
  | rbSampleConfig
  | rbSampleLocation
  | spTpSampleConfig
  | spTpSampleLocation
  | grasSuPolyOffsetScale
  | grasSuPolyOffsetOffset
  | grasSuPolyOffsetOffsetClamp
  | rbDepthCntl
  | rbStencilControl
  | rbMrtControl
  | rbMrtBlendControl
  | grasClCntl
  | vpcPolygonMode
  | pcPolygonMode
  | grasSuPointMinmax
  | grasSuPointSize
  | grasSuCntl
  | rbAlphaControl
  | rbZBoundsMin
  | rbZBoundsMax
  | rbStencilMask
  | rbStencilWrMask
  | rbStencilRef
  | spBlendCntl
  | rbBlendCntl
  | rbBlendRed
  deriving Repr, DecidableEq

/-- One 32-bit word of a command stream.

* `pkt4 r i cnt` — a CP_PKT4 header targeting register `r` (array index `i`)
  with `cnt` payload dwords.
* `pkt7 op cnt` — a CP_PKT7 header with opcode `op` and `cnt` payload dwords.
* `raw v` — a plain 32-bit value computed by `tu_pipeline.c` itself.
* `regAddr t i` — a register address written as data (`CP_CONTEXT_REG_BUNCH`
  payloads alternate register addresses and values).
* `reg t args` — the payload word for register `t`: the external packing
  macro applied to the listed argument values (booleans as 0/1).
* `freg t args` — same for a register whose arguments are floating-point;
  float arithmetic is carried exactly over `ℚ` (spec §6 treats the bit-level
  float encoding as external ABI). -/
inductive Dword where
  | pkt4 (r : RegTag) (i cnt : Nat)
  | pkt7 (opcode cnt : Nat)
  | raw (v : Nat)
  | regAddr (t : RegTag) (i : Nat)
  | reg (t : RegTag) (args : List Int)
  | freg (t : RegTag) (args : List Rat)
  deriving Repr, DecidableEq

/-- `tu_cs_emit_qw`: a 64-bit value as two dwords, low word first. -/
def tu_cs_emit_qw (v : Nat) : List Dword :=
  [.raw (v % 2 ^ 32), .raw (v / 2 ^ 32 % 2 ^ 32)]

/-- Coerce a `Bool` to the 0/1 argument form used in `Dword.reg` lists. -/
def bit (b : Bool) : Int := if b then 1 else 0

/-! ## Descriptor model (tu_descriptor_set_layout) -/

/-- `VkDescriptorType`, restricted to the values `tu_pipeline.c` handles
(everything else is `unreachable` behind API validation). -/
inductive DescriptorType where
  | storageBuffer
  | storageBufferDynamic
  | storageImage
  | storageTexelBuffer
  | sampler
  | sampledImage
  | uniformTexelBuffer
  | uniformBuffer
  | uniformBufferDynamic
  | combinedImageSampler
  | inputAttachment
  deriving Repr, DecidableEq

/-- One `tu_descriptor_set_binding_layout`. -/
structure BindingLayout where
  descType : DescriptorType
  shader_stages : Nat
  array_size : Nat
  offset : Nat
  dynamic_offset_offset : Nat
  deriving Repr, DecidableEq

/-- One `tu_descriptor_set_layout` (`binding_count` = `bindings.length`). -/
structure SetLayout where
  bindings : List BindingLayout
  deriving Repr, DecidableEq

/-- One entry of `tu_pipeline_layout::set`. -/
structure SetInfo where
  layout : SetLayout
  dynamic_offset_start : Nat
  deriving Repr, DecidableEq

/-- `tu_pipeline_layout` (`num_sets` = `sets.length`). -/
structure PipelineLayout where
  sets : List SetInfo
  deriving Repr, DecidableEq

/-! ## Descriptor-prefetch sizer and emitter -/

/-- The per-binding stage-mask filter shared by the sizer and the emitter:
the compute bit on the compute path, `VK_SHADER_STAGE_ALL_GRAPHICS` on the
graphics path (explicitly, to drop the extra bits of `VK_SHADER_STAGE_ALL`). -/
def binding_stages (b : BindingLayout) (compute : Bool) : Nat :=
  if compute then b.shader_stages &&& VK_SHADER_STAGE_COMPUTE_BIT
  else b.shader_stages &&& VK_SHADER_STAGE_ALL_GRAPHICS

/-- Packet count contributed by one binding in `tu6_load_state_size`
(the body of the `switch (binding->type)`). -/
def load_state_packet_count (b : BindingLayout) (compute : Bool) : Nat :=
  let stages := binding_stages b compute
  let stage_count := util_bitcount stages
  match b.descType with
  | .storageBuffer | .storageBufferDynamic | .storageImage
  | .storageTexelBuffer =>
    (if stages &&& (0xffffffff ^^^ VK_SHADER_STAGE_COMPUTE_BIT) ≠ 0
       then 1 else 0) +
    (if stages &&& VK_SHADER_STAGE_COMPUTE_BIT ≠ 0 then 1 else 0)
  | .sampler | .sampledImage | .uniformTexelBuffer | .uniformBuffer
  | .uniformBufferDynamic => stage_count
  | .combinedImageSampler => stage_count * b.array_size * 2
  | .inputAttachment => 0

/-- `tu6_load_state_size` (tu_pipeline.c:65): dword size of the prefetch
block, four dwords per packet, skipping descriptor sets the pipeline does
not use. -/
def tu6_load_state_size (layout : PipelineLayout) (active_desc_sets : Nat)
    (compute : Bool) : Nat :=
  let load_state_size := 4
  (layout.sets.enum.map fun (i, s) =>
    if ¬ active_desc_sets.testBit i then 0
    else (s.layout.bindings.map fun b =>
      if b.array_size = 0 then 0
      else load_state_packet_count b compute * load_state_size).sum).sum

/-- `emit_load_state` (tu_pipeline.c:46): one `CP_LOAD_STATE6` packet of
3 payload dwords; the descriptor count is clamped to `1024 - 1` in the
`NUM_UNIT` field, and only one packet is emitted even if `count`
overflows it. -/
def emit_load_state (opcode st sb base offset count : Nat) : List Dword :=
  [.pkt7 opcode 3,
   .reg .loadState6_0
     [0, (st : Int), (SS6_BINDLESS : Int), (sb : Int),
      (min count (1024 - 1) : Int)]]
  ++ tu_cs_emit_qw ((offset ||| (base <<< 28)) % 2 ^ 32)

/-- Dwords emitted for one binding by the loop body of
`tu6_emit_load_state` (tu_pipeline.c:158-238). `i` is the set index. -/
def tu6_emit_load_state_binding (layout : PipelineLayout) (i : Nat)
    (b : BindingLayout) (compute : Bool) : List Dword :=
  let base := i
  let offset := b.offset / 4
  let stages := binding_stages b compute
  let count := b.array_size
  if count = 0 ∨ stages = 0 then []
  else
    let dyn_offset := fun (_ : Unit) =>
      ((((layout.sets.get? i).map SetInfo.dynamic_offset_start).getD 0 +
        b.dynamic_offset_offset) * A6XX_TEX_CONST_DWORDS)
    match b.descType with
    | .storageBufferDynamic | .storageBuffer | .storageImage
    | .storageTexelBuffer =>
      -- the `_DYNAMIC` case rebinds base/offset and falls through
      let base := if b.descType = .storageBufferDynamic then MAX_SETS else base
      let offset := if b.descType = .storageBufferDynamic then dyn_offset ()
        else offset
      (if stages &&& (0xffffffff ^^^ VK_SHADER_STAGE_COMPUTE_BIT) ≠ 0
         then emit_load_state CP_LOAD_STATE6 ST6_SHADER SB6_IBO base offset count
         else []) ++
      (if stages &&& VK_SHADER_STAGE_COMPUTE_BIT ≠ 0
         then emit_load_state CP_LOAD_STATE6_FRAG ST6_IBO SB6_CS_SHADER base
           offset count
         else [])
    | .inputAttachment => []
    | .sampler | .sampledImage | .uniformTexelBuffer =>
      (tu_foreach_stage stages).flatMap fun stage =>
        emit_load_state (tu6_stage2opcode stage)
          (if b.descType = .sampler then ST6_SHADER else ST6_CONSTANTS)
          (tu6_stage2texsb stage) base offset count
    | .uniformBufferDynamic | .uniformBuffer =>
      let base := if b.descType = .uniformBufferDynamic then MAX_SETS else base
      let offset := if b.descType = .uniformBufferDynamic then dyn_offset ()
        else offset
      (tu_foreach_stage stages).flatMap fun stage =>
        emit_load_state (tu6_stage2opcode stage) ST6_UBO
          (tu6_stage2shadersb stage) base offset count
    | .combinedImageSampler =>
      (tu_foreach_stage stages).flatMap fun stage =>
        (List.range count).flatMap fun k =>
          let tex_offset := offset + 2 * k * A6XX_TEX_CONST_DWORDS
          let sam_offset := offset + (2 * k + 1) * A6XX_TEX_CONST_DWORDS
          emit_load_state (tu6_stage2opcode stage) ST6_CONSTANTS
            (tu6_stage2texsb stage) base tex_offset 1 ++
          emit_load_state (tu6_stage2opcode stage) ST6_SHADER
            (tu6_stage2texsb stage) base sam_offset 1

/-- `tu6_emit_load_state` (tu_pipeline.c:126): the dwords of the load-state
sub-stream (empty when the sizer reports size 0, matching the early
return). -/
def tu6_emit_load_state (layout : PipelineLayout) (active_desc_sets : Nat)
    (compute : Bool) : List Dword :=
  if tu6_load_state_size layout active_desc_sets compute = 0 then []
  else
    layout.sets.enum.flatMap fun (i, s) =>
      if ¬ active_desc_sets.testBit i then []
      else s.layout.bindings.flatMap fun b =>
        tu6_emit_load_state_binding layout i b compute

/-! ## C1: the prefetch sizer matches the prefetch emitter -/

theorem emit_load_state_length (opcode st sb base offset count : Nat) :
    (emit_load_state opcode st sb base offset count).length = 4 := rfl

/-- Length of a `flatMap` whose pieces all have the same length. -/
theorem length_flatMap_const {α β : Type} (l : List α) (f : α → List β) (k : Nat)
    (h : ∀ x ∈ l, (f x).length = k) : (l.flatMap f).length = l.length * k := by
  induction l with
  | nil => simp
  | cons a l ih =>
    simp only [List.flatMap_cons, List.length_append, List.length_cons]
    rw [h a (List.mem_cons_self a l), ih fun x hx => h x (List.mem_cons_of_mem a hx)]
    ring

/-- The dwords emitted for one binding are exactly four per packet counted by
the sizer's `switch` for that binding. -/
theorem tu6_emit_load_state_binding_length (layout : PipelineLayout) (i : Nat)
    (b : BindingLayout) (compute : Bool) :
    (tu6_emit_load_state_binding layout i b compute).length =
      (if b.array_size = 0 then 0
       else load_state_packet_count b compute * 4) := by
  have storage_tac : ∀ (l1 l2 : List Dword) (s : Nat),
      l1.length = (if s &&& (0xffffffff ^^^ VK_SHADER_STAGE_COMPUTE_BIT) ≠ 0 then 4 else 0) →
      l2.length = (if s &&& VK_SHADER_STAGE_COMPUTE_BIT ≠ 0 then 4 else 0) →
      (l1 ++ l2).length =
        ((if s &&& (0xffffffff ^^^ VK_SHADER_STAGE_COMPUTE_BIT) ≠ 0 then 1 else 0) +
          if s &&& VK_SHADER_STAGE_COMPUTE_BIT ≠ 0 then 1 else 0) * 4 := by
    intro l1 l2 s h1 h2
    rw [List.length_append, h1, h2]
    by_cases hg : s &&& (0xffffffff ^^^ VK_SHADER_STAGE_COMPUTE_BIT) ≠ 0 <;>
      by_cases hc : s &&& VK_SHADER_STAGE_COMPUTE_BIT ≠ 0 <;> simp [hg, hc]
  have tex_tac : ∀ (f : Nat → List Dword) (s : Nat),
      (∀ x, (f x).length = 4) →
      ((tu_foreach_stage s).flatMap f).length = util_bitcount s * 4 := by
    intro f s h
    rw [length_flatMap_const _ _ 4 fun x _ => h x, tu_foreach_stage_length]
  simp only [tu6_emit_load_state_binding, load_state_packet_count]
  by_cases hskip : b.array_size = 0 ∨ binding_stages b compute = 0
  · rw [if_pos hskip]
    rcases hskip with h | h
    · simp [h]
    · simp only [List.length_nil]
      have hbc : util_bitcount 0 = 0 := by decide
      cases b.descType <;> simp [h, hbc]
  · rw [if_neg hskip]
    push_neg at hskip
    obtain ⟨hn, hs⟩ := hskip
    rw [if_neg hn]
    cases b.descType
    · exact storage_tac _ _ _ (by split <;> simp [emit_load_state, tu_cs_emit_qw])
        (by split <;> simp [emit_load_state, tu_cs_emit_qw])
    · exact storage_tac _ _ _ (by split <;> simp [emit_load_state, tu_cs_emit_qw])
        (by split <;> simp [emit_load_state, tu_cs_emit_qw])
    · exact storage_tac _ _ _ (by split <;> simp [emit_load_state, tu_cs_emit_qw])
        (by split <;> simp [emit_load_state, tu_cs_emit_qw])
    · exact storage_tac _ _ _ (by split <;> simp [emit_load_state, tu_cs_emit_qw])
        (by split <;> simp [emit_load_state, tu_cs_emit_qw])
    · exact tex_tac _ _ fun x => emit_load_state_length _ _ _ _ _ _
    · exact tex_tac _ _ fun x => emit_load_state_length _ _ _ _ _ _
    · exact tex_tac _ _ fun x => emit_load_state_length _ _ _ _ _ _
    · exact tex_tac _ _ fun x => emit_load_state_length _ _ _ _ _ _
    · exact tex_tac _ _ fun x => emit_load_state_length _ _ _ _ _ _
    · rw [length_flatMap_const _ _ (b.array_size * 8)]
      · rw [tu_foreach_stage_length]
        ring
      · intro x _
        rw [length_flatMap_const _ _ 8 fun y _ => by
          simp [emit_load_state, tu_cs_emit_qw]]
        simp [Nat.mul_comm]
    · simp

/-- The prefetch emitter writes exactly the dword count computed by the
prefetch sizer. -/
theorem tu6_emit_load_state_length (layout : PipelineLayout)
    (active_desc_sets : Nat) (compute : Bool) :
    (tu6_emit_load_state layout active_desc_sets compute).length =
      tu6_load_state_size layout active_desc_sets compute := by
  unfold tu6_emit_load_state
  by_cases h0 : tu6_load_state_size layout active_desc_sets compute = 0
  · simp [h0]
  · rw [if_neg h0]
    unfold tu6_load_state_size
    rw [List.length_flatMap]
    congr 1
    apply List.map_congr_left
    rintro ⟨i, s⟩ _
    simp only [Function.comp_apply]
    by_cases hact : active_desc_sets.testBit i
    · rw [if_neg (by simp [hact]), if_neg (by simp [hact]), List.length_flatMap]
      congr 1
      apply List.map_congr_left
      intro b _
      simp only [Function.comp_apply]
      exact tu6_emit_load_state_binding_length layout i b compute
    · simp [hact]

/-- C1: for every pipeline layout and active-descriptor-set mask, on both
the compute path and the graphics path, the number of dwords (hence bytes,
at four bytes per dword) written into the load-state sub-stream by the
prefetch emitter `tu6_emit_load_state` equals the size computed by the
prefetch sizer `tu6_load_state_size`: the two walk the same nested loops
over sets, bindings and stages in the same order and count the same
packets. -/
theorem C1_load_state_size_eq_emitted (layout : PipelineLayout)
    (active_desc_sets : Nat) (compute : Bool) :
    (tu6_emit_load_state layout active_desc_sets compute).length =
      tu6_load_state_size layout active_desc_sets compute :=
  tu6_emit_load_state_length layout active_desc_sets compute

/-! ## C10: a single clamped packet per `emit_load_state` call -/

/-- Recognize a CP_PKT7 packet header. -/
def Dword.isPkt7 : Dword → Bool
  | .pkt7 _ _ => true
  | _ => false

/-- C10: every call to `emit_load_state` emits exactly one packet, of fixed
size 3+1 dwords, whose `NUM_UNIT` field carries the descriptor count clamped
to at most `1024 - 1 = 1023`; an overflowing count is truncated, never split
into further packets. -/
theorem C10_emit_load_state_one_clamped_packet
    (opcode st sb base offset count : Nat) :
    (emit_load_state opcode st sb base offset count).length = 4 ∧
    (emit_load_state opcode st sb base offset count).countP Dword.isPkt7 = 1 ∧
    (emit_load_state opcode st sb base offset count).head? =
      some (.pkt7 opcode 3) ∧
    Dword.reg .loadState6_0
        [0, (st : Int), (SS6_BINDLESS : Int), (sb : Int),
         (min count 1023 : Int)] ∈
      emit_load_state opcode st sb base offset count ∧
    min count 1023 ≤ 1023 := by
  refine ⟨rfl, ?_, rfl, ?_, min_le_right _ _⟩
  · simp [emit_load_state, tu_cs_emit_qw, List.countP_cons, Dword.isPkt7]
  · simp [emit_load_state]

/-! ## Blend state model -/

/-- `VkBlendFactor`. -/
inductive VkBlendFactor where
  | zero
  | one
  | srcColor
  | oneMinusSrcColor
  | dstColor
  | oneMinusDstColor
  | srcAlpha
  | oneMinusSrcAlpha
  | dstAlpha
  | oneMinusDstAlpha
  | constantColor
  | oneMinusConstantColor
  | constantAlpha
  | oneMinusConstantAlpha
  | srcAlphaSaturate
  | src1Color
  | oneMinusSrc1Color
  | src1Alpha
  | oneMinusSrc1Alpha
  deriving Repr, DecidableEq

/-- `VkBlendOp`. -/
inductive VkBlendOp where
  | add
  | subtract
  | reverseSubtract
  | opMin
  | opMax
  deriving Repr, DecidableEq

/-- `VkLogicOp`. -/
inductive VkLogicOp where
  | clear
  | and
  | andReverse
  | copy
  | andInverted
  | noOp
  | xor
  | or
  | nor
  | equivalent
  | invert
  | orReverse
  | copyInverted
  | orInverted
  | nand
  | set
  deriving Repr, DecidableEq

/-- Modelled from the spec: `tu6_blend_factor` is one of the hardware enum
lookup tables that the spec treats as external black boxes with a defined
domain (§1 non-goals, §6).  Each Vulkan factor maps to a distinct
`adreno_rb_blend_factor` enumerator; it is modelled as the injective
ordinal encoding. -/
def tu6_blend_factor : VkBlendFactor → Nat
  | .zero => 0
  | .one => 1
  | .srcColor => 2
  | .oneMinusSrcColor => 3
  | .dstColor => 4
  | .oneMinusDstColor => 5
  | .srcAlpha => 6
  | .oneMinusSrcAlpha => 7
  | .dstAlpha => 8
  | .oneMinusDstAlpha => 9
  | .constantColor => 10
  | .oneMinusConstantColor => 11
  | .constantAlpha => 12
  | .oneMinusConstantAlpha => 13
  | .srcAlphaSaturate => 14
  | .src1Color => 15
  | .oneMinusSrc1Color => 16
  | .src1Alpha => 17
  | .oneMinusSrc1Alpha => 18

/-- Modelled from the spec: `tu6_blend_op` is an external hardware enum
lookup (§1 non-goals), modelled as the injective ordinal encoding into
`a3xx_rb_blend_opcode`. -/
def tu6_blend_op : VkBlendOp → Nat
  | .add => 0
  | .subtract => 1
  | .reverseSubtract => 2
  | .opMin => 3
  | .opMax => 4

/-- Modelled from the spec: `tu6_rop` is an external hardware enum lookup
(§1 non-goals), modelled as the injective ordinal encoding into
`a3xx_rop_code`. -/
def tu6_rop : VkLogicOp → Nat
  | .clear => 0
  | .and => 1
  | .andReverse => 2
  | .copy => 3
  | .andInverted => 4
  | .noOp => 5
  | .xor => 6
  | .or => 7
  | .nor => 8
  | .equivalent => 9
  | .invert => 10
  | .orReverse => 11
  | .copyInverted => 12
  | .orInverted => 13
  | .nand => 14
  | .set => 15

/-- `ROP_COPY`: the hardware rop enumerator for a plain copy, i.e. the one
`tu6_rop` maps `VK_LOGIC_OP_COPY` to. -/
def ROP_COPY : Nat := tu6_rop .copy

/-- `tu_logic_op_reads_dst` (tu_pipeline.c:269). -/
def tu_logic_op_reads_dst : VkLogicOp → Bool
  | .clear | .copy | .copyInverted | .set => false
  | _ => true

/-- `tu_blend_factor_no_dst_alpha` (tu_pipeline.c:283): treat destination
alpha as 1.0 and avoid reading it. -/
def tu_blend_factor_no_dst_alpha : VkBlendFactor → VkBlendFactor
  | .dstAlpha => .one
  | .oneMinusDstAlpha => .zero
  | factor => factor

/-- `tu_blend_factor_is_dual_src` (tu_pipeline.c:297). -/
def tu_blend_factor_is_dual_src : VkBlendFactor → Bool
  | .src1Color | .oneMinusSrc1Color | .src1Alpha | .oneMinusSrc1Alpha => true
  | _ => false

/-- `VkPipelineColorBlendAttachmentState`. -/
structure BlendAttachmentState where
  blendEnable : Bool
  srcColorBlendFactor : VkBlendFactor
  dstColorBlendFactor : VkBlendFactor
  colorBlendOp : VkBlendOp
  srcAlphaBlendFactor : VkBlendFactor
  dstAlphaBlendFactor : VkBlendFactor
  alphaBlendOp : VkBlendOp
  colorWriteMask : Nat
  deriving Repr, DecidableEq

/-- `VkPipelineColorBlendStateCreateInfo` (`attachmentCount` =
`pAttachments.length`). -/
structure BlendStateCreateInfo where
  logicOpEnable : Bool
  logicOp : VkLogicOp
  pAttachments : List BlendAttachmentState
  blendConstants : List Rat
  deriving Repr, DecidableEq

/-- The all-zero `dummy_blend_info` used when a pipeline has no color
attachments. -/
def dummy_blend_info : BlendStateCreateInfo :=
  ⟨false, .clear, [], [0, 0, 0, 0]⟩

/-- `tu_blend_state_is_dual_src` (tu_pipeline.c:310): scan every
attachment's four blend factors for a dual-source factor. -/
def tu_blend_state_is_dual_src : Option BlendStateCreateInfo → Bool
  | none => false
  | some info =>
    info.pAttachments.any fun blend =>
      tu_blend_factor_is_dual_src blend.srcColorBlendFactor ||
      tu_blend_factor_is_dual_src blend.dstColorBlendFactor ||
      tu_blend_factor_is_dual_src blend.srcAlphaBlendFactor ||
      tu_blend_factor_is_dual_src blend.dstAlphaBlendFactor

/-- `VkFormat`, modelled by the properties `tu_pipeline.c` queries about it:
its identity (for comparisons with `VK_FORMAT_UNDEFINED` and
`VK_FORMAT_S8_UINT`), `vk_format_is_int` and `vk_format_has_alpha` (both
external format-table lookups, spec §1). -/
structure VkFormat where
  id : Nat
  isInt : Bool
  hasAlpha : Bool
  deriving Repr, DecidableEq

def VK_FORMAT_UNDEFINED : VkFormat := ⟨0, false, false⟩

def VK_FORMAT_S8_UINT : VkFormat := ⟨127, false, false⟩

/-- The value of `A6XX_RB_MRT_BLEND_CONTROL(...)`: the register's six
fields, as computed by `tu6_rb_mrt_blend_control` (tu_pipeline.c:1745).
When the attachment format has no alpha channel, the substitution
`tu_blend_factor_no_dst_alpha` is applied to the source-color and
destination-color factors (and only to those). -/
structure RbMrtBlendControl where
  rgb_src_factor : Nat
  rgb_blend_opcode : Nat
  rgb_dest_factor : Nat
  alpha_src_factor : Nat
  alpha_blend_opcode : Nat
  alpha_dest_factor : Nat
  deriving Repr, DecidableEq

/-- `tu6_rb_mrt_blend_control` (tu_pipeline.c:1745). -/
def tu6_rb_mrt_blend_control (att : BlendAttachmentState) (has_alpha : Bool) :
    RbMrtBlendControl :=
  let color_op := tu6_blend_op att.colorBlendOp
  let src_color_factor := tu6_blend_factor
    (if has_alpha then att.srcColorBlendFactor
     else tu_blend_factor_no_dst_alpha att.srcColorBlendFactor)
  let dst_color_factor := tu6_blend_factor
    (if has_alpha then att.dstColorBlendFactor
     else tu_blend_factor_no_dst_alpha att.dstColorBlendFactor)
  let alpha_op := tu6_blend_op att.alphaBlendOp
  let src_alpha_factor := tu6_blend_factor att.srcAlphaBlendFactor
  let dst_alpha_factor := tu6_blend_factor att.dstAlphaBlendFactor
  ⟨src_color_factor, color_op, dst_color_factor,
   src_alpha_factor, alpha_op, dst_alpha_factor⟩

/-- The value of `A6XX_RB_MRT_CONTROL(...)` as computed by
`tu6_rb_mrt_control` (tu_pipeline.c:1770). -/
structure RbMrtControl where
  component_enable : Nat
  rop_enable : Bool
  rop_code : Nat
  blend : Bool
  blend2 : Bool
  deriving Repr, DecidableEq

/-- `tu6_rb_mrt_control` (tu_pipeline.c:1770); `rop_enable`/`rop_code` stand
for the `rb_mrt_control_rop` bits passed in by the caller. -/
def tu6_rb_mrt_control (att : BlendAttachmentState) (rop_enable : Bool)
    (rop_code : Nat) (is_int has_alpha : Bool) : RbMrtControl :=
  if is_int then
    -- ignore blending and logic op for integer attachments
    ⟨att.colorWriteMask, false, ROP_COPY, false, false⟩
  else
    ⟨att.colorWriteMask, rop_enable, rop_code,
     att.blendEnable, att.blendEnable && has_alpha⟩

/-- The control/blend-control pair computed for attachment `i` by the loop
body of `tu6_emit_rb_mrt_controls` (tu_pipeline.c:1814-1836): an undefined
format leaves both registers zero. -/
def tu6_rb_mrt_pair (blend_info : BlendStateCreateInfo)
    (attachment_formats : List VkFormat) (i : Nat)
    (att : BlendAttachmentState) : RbMrtControl × RbMrtBlendControl :=
  let rop_enable := blend_info.logicOpEnable
  let rop_code := if blend_info.logicOpEnable then tu6_rop blend_info.logicOp
    else 0
  let format := (attachment_formats.get? i).getD VK_FORMAT_UNDEFINED
  if format = VK_FORMAT_UNDEFINED then
    (⟨0, false, 0, false, false⟩, ⟨0, 0, 0, 0, 0, 0⟩)
  else
    (tu6_rb_mrt_control att rop_enable rop_code format.isInt format.hasAlpha,
     tu6_rb_mrt_blend_control att format.hasAlpha)

/-- `tu6_emit_rb_mrt_controls` (tu_pipeline.c:1797): per-attachment
control/blend-control register pairs. -/
def tu6_emit_rb_mrt_controls (blend_info : BlendStateCreateInfo)
    (attachment_formats : List VkFormat) : List Dword :=
  blend_info.pAttachments.enum.flatMap fun (i, att) =>
    let pair := tu6_rb_mrt_pair blend_info attachment_formats i att
    [.pkt4 .rbMrtControl i 2,
     .reg .rbMrtControl
       [(pair.1.component_enable : Int), bit pair.1.rop_enable,
        (pair.1.rop_code : Int), bit pair.1.blend, bit pair.1.blend2],
     .reg .rbMrtBlendControl
       [(pair.2.rgb_src_factor : Int), (pair.2.rgb_blend_opcode : Int),
        (pair.2.rgb_dest_factor : Int), (pair.2.alpha_src_factor : Int),
        (pair.2.alpha_blend_opcode : Int), (pair.2.alpha_dest_factor : Int)]]

/-- The `blend_enable_mask` accumulated by `tu6_emit_rb_mrt_controls`. -/
def tu6_blend_enable_mask (blend_info : BlendStateCreateInfo)
    (attachment_formats : List VkFormat) : Nat :=
  let rop_reads_dst := blend_info.logicOpEnable &&
    tu_logic_op_reads_dst blend_info.logicOp
  blend_info.pAttachments.enum.foldl
    (fun acc (p : Nat × BlendAttachmentState) =>
      let format := (attachment_formats.get? p.1).getD VK_FORMAT_UNDEFINED
      if format ≠ VK_FORMAT_UNDEFINED ∧ (p.2.blendEnable || rop_reads_dst) then
        acc ||| (1 <<< p.1)
      else acc)
    0

/-- `VkPipelineMultisampleStateCreateInfo` (plus the chained
sample-locations extension struct, when present). -/
structure MultisampleStateCreateInfo where
  rasterizationSamples : Nat
  sampleShadingEnable : Bool
  pSampleMask : Option Nat
  alphaToCoverageEnable : Bool
  alphaToOneEnable : Bool
  sampleLocationsEnable : Bool
  sampleLocations : List (Rat × Rat)
  deriving Repr, DecidableEq

/-- `tu6_emit_blend_control` (tu_pipeline.c:1839): the `SP_BLEND_CNTL` and
`RB_BLEND_CNTL` register writes; both carry the dual-source-enable flag. -/
def tu6_emit_blend_control (blend_enable_mask : Nat) (dual_src_blend : Bool)
    (msaa_info : MultisampleStateCreateInfo) : List Dword :=
  let sample_mask : Nat := match msaa_info.pSampleMask with
    | some m => m &&& 0xffff
    | none => (1 <<< msaa_info.rasterizationSamples) - 1
  [.pkt4 .spBlendCntl 0 1,
   .reg .spBlendCntl
     [(blend_enable_mask : Int), bit dual_src_blend,
      bit msaa_info.alphaToCoverageEnable, 1],
   .pkt4 .rbBlendCntl 0 1,
   .reg .rbBlendCntl
     [(blend_enable_mask : Int), 1, (sample_mask : Int), bit dual_src_blend,
      bit msaa_info.alphaToCoverageEnable, bit msaa_info.alphaToOneEnable]]

/-! ## C2: alpha substitution for formats without alpha -/

/-- C2 counterexample: for a format without alpha, a `DST_ALPHA` factor
requested in the source-alpha position is passed through unsubstituted, so
the `ALPHA_SRC_FACTOR` field of `RB_MRT_BLEND_CONTROL` is not encoded as
`ONE`: the substitution does not apply to all four factor positions. -/
theorem C2_counterexample_alpha_position_not_substituted :
    (tu6_rb_mrt_blend_control
        ⟨false, .one, .zero, .add, .dstAlpha, .oneMinusDstAlpha, .add, 0xf⟩
        false).alpha_src_factor ≠ tu6_blend_factor .one ∧
    (tu6_rb_mrt_blend_control
        ⟨false, .one, .zero, .add, .dstAlpha, .oneMinusDstAlpha, .add, 0xf⟩
        false).alpha_dest_factor ≠ tu6_blend_factor .zero := by
  decide

/-- C2 (amended): for an attachment format lacking alpha, the substitution
`DST_ALPHA ↦ ONE`, `ONE_MINUS_DST_ALPHA ↦ ZERO` is applied to the
source-color and destination-color factor positions of the emitted
`RB_MRT_BLEND_CONTROL` register — and only to those two positions; the
source-alpha and destination-alpha factors are encoded unsubstituted.  This
holds regardless of any other attachment state. -/
theorem C2_no_dst_alpha_substitution_color_positions
    (att : BlendAttachmentState) :
    (tu6_rb_mrt_blend_control att false).rgb_src_factor =
      tu6_blend_factor (tu_blend_factor_no_dst_alpha att.srcColorBlendFactor) ∧
    (tu6_rb_mrt_blend_control att false).rgb_dest_factor =
      tu6_blend_factor (tu_blend_factor_no_dst_alpha att.dstColorBlendFactor) ∧
    (tu6_rb_mrt_blend_control att false).alpha_src_factor =
      tu6_blend_factor att.srcAlphaBlendFactor ∧
    (tu6_rb_mrt_blend_control att false).alpha_dest_factor =
      tu6_blend_factor att.dstAlphaBlendFactor ∧
    tu_blend_factor_no_dst_alpha .dstAlpha = .one ∧
    tu_blend_factor_no_dst_alpha .oneMinusDstAlpha = .zero := by
  refine ⟨rfl, rfl, rfl, rfl, rfl, rfl⟩

/-! ## Viewport and scissor -/

/-- `VkViewport`; float fields carried exactly over `ℚ`. -/
structure VkViewport where
  x : Rat
  y : Rat
  width : Rat
  height : Rat
  minDepth : Rat
  maxDepth : Rat
  deriving Repr, DecidableEq

/-- `VkRect2D`.  The scissor valid-usage rules of the API guarantee
non-negative offsets (spec §7: well-formed input is the validation layer's
responsibility), so the offset is carried as `Nat`; the arithmetic below is
done in `ℤ` as in the 32-bit source. -/
structure VkRect2D where
  offset_x : Nat
  offset_y : Nat
  extent_width : Nat
  extent_height : Nat
  deriving Repr, DecidableEq

/-- `BITFIELD_MASK(15)` -/
def scissor_max : Int := 2 ^ 15 - 1

/-- The top-left coordinate pair emitted by `tu6_emit_scissor`
(tu_pipeline.c:1586). -/
def scissor_tl (s : VkRect2D) : Int × Int :=
  let max_x : Int := s.offset_x + s.extent_width
  let max_y : Int := s.offset_y + s.extent_height
  let min_x : Int := if max_x = 0 then 1 else s.offset_x
  let min_y : Int := if max_y = 0 then 1 else s.offset_y
  (min scissor_max min_x, min scissor_max min_y)

/-- The bottom-right coordinate pair emitted by `tu6_emit_scissor`
(`max - 1` after the empty-scissor special case and the 15-bit clamp). -/
def scissor_br (s : VkRect2D) : Int × Int :=
  let max_x : Int := s.offset_x + s.extent_width
  let max_y : Int := s.offset_y + s.extent_height
  let max_x := if max_x = 0 then 1 else max_x
  let max_y := if max_y = 0 then 1 else max_y
  (min scissor_max max_x - 1, min scissor_max max_y - 1)

/-- `tu6_emit_scissor` (tu_pipeline.c:1586). -/
def tu6_emit_scissor (s : VkRect2D) : List Dword :=
  [.pkt4 .grasScScreenScissorTl 0 2,
   .reg .grasScScreenScissorTl [(scissor_tl s).1, (scissor_tl s).2],
   .reg .grasScScreenScissorBr [(scissor_br s).1, (scissor_br s).2]]

/-- Modelled from the spec: `fd_calc_guardband`
(common/freedreno_guardband.h) is the external hardware-specific guardband
formula (§4.5); only its inputs are relevant here, so the emitted register
carries them. -/
def tu6_emit_viewport (viewport : VkViewport) : List Dword :=
  let scale_x := viewport.width / 2
  let scale_y := viewport.height / 2
  let scale_z := viewport.maxDepth - viewport.minDepth
  let offset_x := viewport.x + scale_x
  let offset_y := viewport.y + scale_y
  let offset_z := viewport.minDepth
  -- (int32_t) casts truncate; on the non-negative domain enforced by the
  -- asserts in the source this is the floor
  let min_x : Int := viewport.x.floor
  let max_x : Int := (viewport.x + viewport.width).ceil
  let min_y : Int := if 0 ≤ viewport.height then viewport.y.floor
    else (viewport.y + viewport.height).floor
  let max_y : Int := if 0 ≤ viewport.height then (viewport.y + viewport.height).ceil
    else viewport.y.ceil
  -- the spec allows viewport->height to be 0.0f
  let max_y := if min_y = max_y then max_y + 1 else max_y
  [.pkt4 .grasClVportXOffset 0 6,
   .freg .grasClVportXOffset [offset_x],
   .freg .grasClVportXScale [scale_x],
   .freg .grasClVportYOffset [offset_y],
   .freg .grasClVportYScale [scale_y],
   .freg .grasClVportZOffset [offset_z],
   .freg .grasClVportZScale [scale_z],
   .pkt4 .grasScViewportScissorTl 0 2,
   .reg .grasScViewportScissorTl [min_x, min_y],
   .reg .grasScViewportScissorBr [max_x - 1, max_y - 1],
   .pkt4 .grasClGuardbandClipAdj 0 1,
   .freg .grasClGuardbandClipAdj [offset_x, scale_x, offset_y, scale_y],
   .pkt4 .grasClZClampMin 0 2,
   .freg .grasClZClampMin [min viewport.minDepth viewport.maxDepth],
   .freg .grasClZClampMax [max viewport.minDepth viewport.maxDepth],
   .pkt4 .rbZClampMin 0 2,
   .freg .rbZClampMin [min viewport.minDepth viewport.maxDepth],
   .freg .rbZClampMax [max viewport.minDepth viewport.maxDepth]]

/-- `VkSampleLocationsInfoEXT`: the per-pixel sample positions. -/
structure SampleLocationsInfo where
  pSampleLocations : List (Rat × Rat)
  deriving Repr, DecidableEq

/-- `tu6_emit_sample_locations` (tu_pipeline.c:1615). -/
def tu6_emit_sample_locations (samp_loc : Option SampleLocationsInfo) :
    List Dword :=
  match samp_loc with
  | none =>
    [.pkt4 .grasSampleConfig 0 1, .raw 0,
     .pkt4 .rbSampleConfig 0 1, .raw 0,
     .pkt4 .spTpSampleConfig 0 1, .raw 0]
  | some loc =>
    let locations := loc.pSampleLocations.flatMap fun p => [p.1, p.2]
    [.pkt4 .grasSampleConfig 0 2,
     .reg .grasSampleConfig [1],
     .freg .grasSampleLocation locations,
     .pkt4 .rbSampleConfig 0 2,
     .reg .rbSampleConfig [1],
     .freg .rbSampleLocation locations,
     .pkt4 .spTpSampleConfig 0 2,
     .reg .spTpSampleConfig [1],
     .freg .spTpSampleLocation locations]

/-! ## Rasterizer and depth/stencil encoders -/

/-- `VkCompareOp`. -/
inductive VkCompareOp where
  | never
  | less
  | equal
  | lessOrEqual
  | greater
  | notEqual
  | greaterOrEqual
  | always
  deriving Repr, DecidableEq

/-- Modelled from the spec: `tu6_compare_func` is an external enum lookup
(§1 non-goals), modelled as the injective ordinal encoding. -/
def tu6_compare_func : VkCompareOp → Nat
  | .never => 0
  | .less => 1
  | .equal => 2
  | .lessOrEqual => 3
  | .greater => 4
  | .notEqual => 5
  | .greaterOrEqual => 6
  | .always => 7

/-- `VkStencilOp`. -/
inductive VkStencilOp where
  | keep
  | zero
  | replace
  | incrementAndClamp
  | decrementAndClamp
  | invert
  | incrementAndWrap
  | decrementAndWrap
  deriving Repr, DecidableEq

/-- Modelled from the spec: `tu6_stencil_op` is an external enum lookup
(§1 non-goals), modelled as the injective ordinal encoding. -/
def tu6_stencil_op : VkStencilOp → Nat
  | .keep => 0
  | .zero => 1
  | .replace => 2
  | .incrementAndClamp => 3
  | .decrementAndClamp => 4
  | .invert => 5
  | .incrementAndWrap => 6
  | .decrementAndWrap => 7

/-- `VkPolygonMode`. -/
inductive VkPolygonMode where
  | fill
  | line
  | point
  deriving Repr, DecidableEq

/-- Modelled from the spec: `tu6_polygon_mode` is an external enum lookup
(§1 non-goals), modelled as the injective ordinal encoding. -/
def tu6_polygon_mode : VkPolygonMode → Nat
  | .fill => 0
  | .line => 1
  | .point => 2

/-- `VkStencilOpState`. -/
structure VkStencilOpState where
  failOp : VkStencilOp
  passOp : VkStencilOp
  depthFailOp : VkStencilOp
  compareOp : VkCompareOp
  compareMask : Nat
  writeMask : Nat
  reference : Nat
  deriving Repr, DecidableEq

/-- `VkPipelineDepthStencilStateCreateInfo`. -/
structure DepthStencilStateCreateInfo where
  depthTestEnable : Bool
  depthWriteEnable : Bool
  depthCompareOp : VkCompareOp
  depthBoundsTestEnable : Bool
  stencilTestEnable : Bool
  front : VkStencilOpState
  back : VkStencilOpState
  minDepthBounds : Rat
  maxDepthBounds : Rat
  deriving Repr, DecidableEq

/-- The zero-initialised `dummy_ds_info` (tu_pipeline.c:2302). -/
def dummy_ds_info : DepthStencilStateCreateInfo :=
  ⟨false, false, .never, false, false,
   ⟨.keep, .keep, .keep, .never, 0, 0, 0⟩,
   ⟨.keep, .keep, .keep, .never, 0, 0, 0⟩, 0, 0⟩

/-- `VkPipelineRasterizationStateCreateInfo` (plus the chained
depth-clip-enable extension, when present). -/
structure RasterizationStateCreateInfo where
  depthClampEnable : Bool
  rasterizerDiscardEnable : Bool
  polygonMode : VkPolygonMode
  cullMode : Nat
  frontFaceClockwise : Bool
  depthBiasEnable : Bool
  depthBiasConstantFactor : Rat
  depthBiasClamp : Rat
  depthBiasSlopeFactor : Rat
  lineWidth : Rat
  depthClipEnableExt : Option Bool
  deriving Repr, DecidableEq

/-- `tu6_gras_su_cntl` (tu_pipeline.c:1656), as the fields of
`A6XX_GRAS_SU_CNTL` (the line half-width is OR'd in later by the caller
when line width is static). -/
structure GrasSuCntl where
  cull_front : Bool
  cull_back : Bool
  front_cw : Bool
  poly_offset : Bool
  msaa_enable : Bool
  linehalfwidth : Rat
  deriving Repr, DecidableEq

def VK_CULL_MODE_FRONT_BIT : Nat := 1

def VK_CULL_MODE_BACK_BIT : Nat := 2

/-- `tu6_gras_su_cntl` (tu_pipeline.c:1656). -/
def tu6_gras_su_cntl (rast_info : RasterizationStateCreateInfo)
    (samples : Nat) : GrasSuCntl :=
  { cull_front := rast_info.cullMode &&& VK_CULL_MODE_FRONT_BIT ≠ 0
    cull_back := rast_info.cullMode &&& VK_CULL_MODE_BACK_BIT ≠ 0
    front_cw := rast_info.frontFaceClockwise
    poly_offset := rast_info.depthBiasEnable
    msaa_enable := 1 < samples
    linehalfwidth := 0 }

/-- The `A6XX_GRAS_SU_CNTL` register word for a `GrasSuCntl` value. -/
def GrasSuCntl.dword (g : GrasSuCntl) : List Dword :=
  [.pkt4 .grasSuCntl 0 1,
   .freg .grasSuCntl
     [bit g.cull_front, bit g.cull_back, bit g.front_cw, bit g.poly_offset,
      bit g.msaa_enable, g.linehalfwidth]]

/-- `tu6_emit_depth_bias` (tu_pipeline.c:1681). -/
def tu6_emit_depth_bias (constant_factor clamp slope_factor : Rat) :
    List Dword :=
  [.pkt4 .grasSuPolyOffsetScale 0 3,
   .freg .grasSuPolyOffsetScale [slope_factor],
   .freg .grasSuPolyOffsetOffset [constant_factor],
   .freg .grasSuPolyOffsetOffsetClamp [clamp]]

/-- `tu6_emit_depth_control` (tu_pipeline.c:1693): the `RB_DEPTH_CNTL`
fields, with the or-accumulation of the source flattened into one field
list: `[Z_ENABLE, ZFUNC, Z_TEST_ENABLE, Z_CLAMP_ENABLE, Z_WRITE_ENABLE,
Z_BOUNDS_ENABLE]`. -/
def tu6_emit_depth_control (ds_info : DepthStencilStateCreateInfo)
    (rast_info : RasterizationStateCreateInfo) : List Dword :=
  let t := ds_info.depthTestEnable
  [.pkt4 .rbDepthCntl 0 1,
   .reg .rbDepthCntl
     [bit t,
      (if t then tu6_compare_func ds_info.depthCompareOp else 0 : Int),
      bit (t || ds_info.depthBoundsTestEnable),
      bit (t && rast_info.depthClampEnable),
      bit (t && ds_info.depthWriteEnable),
      bit ds_info.depthBoundsTestEnable]]

/-- `tu6_emit_stencil_control` (tu_pipeline.c:1719): the
`RB_STENCIL_CONTROL` fields `[ENABLE, ENABLE_BF, READ, FUNC, FAIL, ZPASS,
ZFAIL, FUNC_BF, FAIL_BF, ZPASS_BF, ZFAIL_BF]`. -/
def tu6_emit_stencil_control (ds_info : DepthStencilStateCreateInfo) :
    List Dword :=
  let e := ds_info.stencilTestEnable
  let f := ds_info.front
  let b := ds_info.back
  [.pkt4 .rbStencilControl 0 1,
   .reg .rbStencilControl
     (if e then
       [1, 1, 1,
        (tu6_compare_func f.compareOp : Int), (tu6_stencil_op f.failOp : Int),
        (tu6_stencil_op f.passOp : Int), (tu6_stencil_op f.depthFailOp : Int),
        (tu6_compare_func b.compareOp : Int), (tu6_stencil_op b.failOp : Int),
        (tu6_stencil_op b.passOp : Int), (tu6_stencil_op b.depthFailOp : Int)]
      else [0, 0, 0, 0, 0, 0, 0, 0, 0, 0, 0])]

/-! ## C3: scissor clamping and degeneracy -/

/-- C3 counterexample: the scissor at offset (2,2) with zero extent is
emitted as top-left (2,2) and bottom-right (1,1) — an inverted/empty range
whose bottom-right lies below the top-left, not a minimal 1×1 box at the
clamped origin (which would be bottom-right (2,2)). -/
theorem C3_counterexample_zero_extent_is_inverted :
    tu6_emit_scissor ⟨2, 2, 0, 0⟩ =
      [.pkt4 .grasScScreenScissorTl 0 2,
       .reg .grasScScreenScissorTl [2, 2],
       .reg .grasScScreenScissorBr [1, 1]] ∧
    (scissor_br ⟨2, 2, 0, 0⟩).1 < (scissor_tl ⟨2, 2, 0, 0⟩).1 := by
  refine ⟨rfl, by decide⟩

/-- C3 (amended): the emitted scissor bounds are clamped to the 15-bit
range (top-left in [0, 32767], bottom-right in [-1·(never), 32766]); a
scissor whose computed max coordinate is 0 is first bumped to min = max = 1
so that the bottom-right `max − 1` never wraps below zero; and a zero-width
(resp. zero-height) scissor is encoded as a deliberately empty range whose
bottom-right coordinate is exactly one unit below the clamped top-left —
not as a 1×1 box. -/
theorem C3_scissor_clamped_and_empty_encoded (s : VkRect2D) :
    tu6_emit_scissor s =
      [.pkt4 .grasScScreenScissorTl 0 2,
       .reg .grasScScreenScissorTl [(scissor_tl s).1, (scissor_tl s).2],
       .reg .grasScScreenScissorBr [(scissor_br s).1, (scissor_br s).2]] ∧
    (0 ≤ (scissor_tl s).1 ∧ (scissor_tl s).1 ≤ 32767 ∧
     0 ≤ (scissor_tl s).2 ∧ (scissor_tl s).2 ≤ 32767) ∧
    (0 ≤ (scissor_br s).1 ∧ (scissor_br s).1 ≤ 32766 ∧
     0 ≤ (scissor_br s).2 ∧ (scissor_br s).2 ≤ 32766) ∧
    (s.extent_width = 0 → (scissor_br s).1 = (scissor_tl s).1 - 1) ∧
    (s.extent_height = 0 → (scissor_br s).2 = (scissor_tl s).2 - 1) := by
  obtain ⟨ox, oy, w, h⟩ := s
  have one_d : ∀ o k : Nat,
      0 ≤ (min scissor_max (if ((o : Int) + k) = 0 then 1 else (o : Int)))
        ∧ (min scissor_max (if ((o : Int) + k) = 0 then 1 else (o : Int))) ≤ 32767
        ∧ 0 ≤ (min scissor_max (if ((o : Int) + k) = 0 then 1 else (o : Int) + k)) - 1
        ∧ (min scissor_max (if ((o : Int) + k) = 0 then 1 else (o : Int) + k)) - 1 ≤ 32766
        ∧ (k = 0 →
            (min scissor_max (if ((o : Int) + k) = 0 then 1 else (o : Int) + k)) - 1 =
              (min scissor_max (if ((o : Int) + k) = 0 then 1 else (o : Int))) - 1) := by
    intro o k
    by_cases h : ((o : Int) + k) = 0
    · rw [if_pos h, if_pos h]
      have ho : (o : Int) = 0 ∧ (k : Int) = 0 := by omega
      simp only [scissor_max]
      norm_num
    · rw [if_neg h, if_neg h]
      simp only [scissor_max]
      refine ⟨?_, ?_, ?_, ?_, ?_⟩
      · rcases le_total ((2:Int)^15 - 1) ((o : Int)) with hle | hle
        · rw [min_eq_left hle]; norm_num
        · rw [min_eq_right hle]; positivity
      · exact le_trans (min_le_left _ _) (by norm_num)
      · have h1 : (1 : Int) ≤ (o : Int) + k := by omega
        rcases le_total ((2:Int)^15 - 1) ((o : Int) + k) with hle | hle
        · rw [min_eq_left hle]; norm_num
        · rw [min_eq_right hle]; omega
      · have := min_le_left ((2:Int)^15 - 1) ((o : Int) + k)
        omega
      · intro hk
        subst hk
        norm_num
  refine ⟨rfl, ?_, ?_, ?_, ?_⟩
  · exact ⟨(one_d ox w).1, (one_d ox w).2.1, (one_d oy h).1, (one_d oy h).2.1⟩
  · exact ⟨(one_d ox w).2.2.1, (one_d ox w).2.2.2.1,
      (one_d oy h).2.2.1, (one_d oy h).2.2.2.1⟩
  · intro hw
    have := (one_d ox w).2.2.2.2 hw
    simpa [scissor_br, scissor_tl] using this
  · intro hh
    have := (one_d oy h).2.2.2.2 hh
    simpa [scissor_br, scissor_tl] using this

/-- Witness for C3 at the all-zero scissor: the zero-area hypotheses hold
and the emitted bottom-right is one below the top-left yet non-negative. -/
theorem C3_scissor_witness :
    (scissor_br ⟨0, 0, 0, 0⟩).1 = (scissor_tl ⟨0, 0, 0, 0⟩).1 - 1 ∧
    0 ≤ (scissor_br ⟨0, 0, 0, 0⟩).1 := by
  obtain ⟨-, -, hbr, hw, -⟩ := C3_scissor_clamped_and_empty_encoded ⟨0, 0, 0, 0⟩
  exact ⟨hw rfl, hbr.1⟩

/-! ## Shader variants and inter-stage linkage

External mesa enum values (gl_varying_slot, gl_vert_attrib): only their
identities matter to this translation unit. -/

def VARYING_SLOT_POS : Nat := 0

def VARYING_SLOT_PSIZ : Nat := 1

def VARYING_SLOT_PRIMITIVE_ID : Nat := 8

def VARYING_SLOT_LAYER : Nat := 9

def VARYING_SLOT_PNTC : Nat := 12

def VARYING_SLOT_GS_VERTEX_FLAGS_IR3 : Nat := 60

def VERT_ATTRIB_GENERIC0 : Nat := 16

/-- `INVALID_REG` (ir3): the invalid register id. -/
def INVALID_REG : Nat := INVALID_REGID

/-- One entry of an ir3 shader variant's per-input/output slot table
(spec §3 ShaderVariant): semantic slot, assigned register, component mask,
and for fragment inputs the packed input location, interpolation qualifier
and varying flag. -/
structure IoSlot where
  slot : Nat
  regid : Nat
  compmask : Nat
  inloc : Nat
  flat : Bool
  rasterflat : Bool
  bary : Bool
  deriving Repr, DecidableEq

/-- One `ir3_stream_output` record. -/
structure StreamOutput where
  register_index : Nat
  start_component : Nat
  num_components : Nat
  output_buffer : Nat
  dst_offset : Nat
  deriving Repr, DecidableEq

/-- One `ir3_sampler_prefetch` record. -/
structure SamplerPrefetch where
  src : Nat
  samp_id : Nat
  tex_id : Nat
  dst : Nat
  wrmask : Nat
  half_precision : Bool
  cmd : Nat
  samp_bindless_id : Nat
  tex_bindless_id : Nat
  deriving Repr, DecidableEq

/-- `tess_spacing` (shader_info). -/
inductive TessSpacing where
  | unspecified
  | equal
  | fractionalOdd
  | fractionalEven
  deriving Repr, DecidableEq

/-- The slice of `shader_info` (`->shader->nir->info`) the pipeline
compiler reads. -/
structure NirInfo where
  tcs_vertices_out : Nat
  tess_primitive_mode : Nat
  tess_spacing : TessSpacing
  tess_point_mode : Bool
  tess_ccw : Bool
  gs_vertices_in : Nat
  gs_vertices_out : Nat
  gs_invocations : Nat
  gs_output_primitive : Nat
  outputs_written : Nat
  deriving Repr, DecidableEq

/-- An `ir3_shader_variant` together with the pieces of its owning
`ir3_shader` (stream-output info, nir info) that `tu_pipeline.c` reads
(spec §3 ShaderVariant: opaque machine code plus metadata). -/
structure Variant where
  typ : Nat
  outputs : List IoSlot
  inputs : List IoSlot
  sysvals : List (Nat × Nat)
  stream_output : List StreamOutput
  bin : List Nat
  instrlen : Nat
  constlen : Nat
  offset_immediate : Nat
  offset_primitive_param : Nat
  offset_primitive_map : Nat
  immediates : List Nat
  max_reg : Nat
  max_half_reg : Nat
  branchstack : Nat
  mergedregs : Bool
  need_pixlod : Bool
  need_fine_derivatives : Bool
  bindless_tex : Bool
  bindless_samp : Bool
  bindless_ibo : Bool
  bindless_ubo : Bool
  num_samp : Nat
  total_in : Nat
  writes_pos : Bool
  writes_smask : Bool
  writes_stencilref : Bool
  no_earlyz : Bool
  has_kill : Bool
  per_samp : Bool
  frag_face : Bool
  fragcoord_compmask : Nat
  color0_mrt : Bool
  sampler_prefetch : List SamplerPrefetch
  key_sample_shading : Bool
  output_size : Nat
  nir : Option NirInfo
  deriving Repr, DecidableEq

/-- `info.sizedwords`: the binary size in words. -/
def Variant.sizedwords (v : Variant) : Nat := v.bin.length

/-- `ir3_find_output_regid(v, slot)`: the register id of the output with
the given semantic slot, or the invalid register. -/
def ir3_find_output_regid (v : Variant) (slot : Nat) : Nat :=
  match v.outputs.find? fun o => o.slot = slot with
  | some o => o.regid
  | none => regid 63 0

/-- `ir3_find_sysval_regid(v, sv)`. -/
def ir3_find_sysval_regid (v : Variant) (sv : Nat) : Nat :=
  match v.sysvals.find? fun p => p.1 = sv with
  | some p => p.2
  | none => regid 63 0

/-- One `ir3_shader_linkage` entry. -/
structure LinkEntry where
  regid : Nat
  compmask : Nat
  loc : Nat
  deriving Repr, DecidableEq

/-- `ir3_shader_linkage`: the LinkageMap (spec §3).  `varmask` (the
128-bit used-component mask, `uint32_t varmask[4]` in ir3) is carried as
one natural with bit `i` for component location `i`. -/
structure ShaderLinkage where
  var : List LinkEntry
  max_loc : Nat
  primid_loc : Nat
  varmask : Nat
  deriving Repr, DecidableEq

/-- `ir3_link_add` (ir3_shader.h, an external helper): append an entry,
raise `max_loc` to one past the entry's last component, and mark the
entry's component locations in `varmask`. -/
def ir3_link_add (l : ShaderLinkage) (regid_ compmask loc : Nat) :
    ShaderLinkage :=
  { var := l.var ++ [⟨regid_, compmask, loc⟩]
    max_loc := max l.max_loc (loc + util_last_bit compmask)
    primid_loc := l.primid_loc
    varmask := l.varmask ||| ((2 ^ util_last_bit compmask - 1) <<< loc) }

/-- Modelled from the spec (§4.3): `ir3_link_shaders` is part of the
external ir3 compiler.  Starting from the fragment stage's declared inputs,
it assigns each consumed value the next unused packed location, preserving
the fragment stage's preferred ordering; the producing register is looked
up by semantic slot in the producer's output table, and the location of a
consumed primitive-id input is recorded in `primid_loc`. -/
def ir3_link_shaders (l : ShaderLinkage) (producer consumer : Variant) :
    ShaderLinkage :=
  consumer.inputs.foldl
    (fun l inp =>
      if inp.compmask ≠ 0 ∧ inp.bary then
        match producer.outputs.find? fun o => o.slot = inp.slot with
        | some o =>
          let loc := l.max_loc
          let l := ir3_link_add l o.regid inp.compmask loc
          if inp.slot = VARYING_SLOT_PRIMITIVE_ID then
            { l with primid_loc := loc }
          else l
        | none => l
      else l)
    l

/-- One iteration of the loop of `tu6_link_streamout`
(tu_pipeline.c:562-594). -/
def tu6_link_streamout_step (v : Variant) (l : ShaderLinkage)
    (out : StreamOutput) : ShaderLinkage :=
  let compmask := (1 <<< (out.num_components + out.start_component)) - 1
  let k := out.register_index
  match v.outputs.get? k with
  | none => l
  | some vout =>
    -- psize/pos need to be the last entries in linkage map, skip them
    if vout.slot = VARYING_SLOT_PSIZ ∨ vout.slot = VARYING_SLOT_POS then l
    else
      match l.var.findIdx? fun e => e.regid = vout.regid with
      | some idx =>
        -- already in linkage map: expand component mask if needed
        match l.var.get? idx with
        | none => l
        | some e =>
          if compmask &&& (0xffffffff ^^^ e.compmask) ≠ 0 then
            { l with
              var := l.var.set idx ⟨e.regid, e.compmask ||| compmask, e.loc⟩
              max_loc := max l.max_loc
                (e.loc + util_last_bit (e.compmask ||| compmask)) }
          else l
      | none =>
        -- add at the next location past every existing entry
        let nextloc := l.var.foldl (fun n e => max n (e.loc + 4)) 0
        ir3_link_add l vout.regid compmask nextloc

/-- `tu6_link_streamout` (tu_pipeline.c:552): add any missing varyings
needed for stream-out. -/
def tu6_link_streamout (l : ShaderLinkage) (v : Variant) : ShaderLinkage :=
  v.stream_output.foldl (tu6_link_streamout_step v) l

/-- The linkage of `tu6_emit_vpc` (tu_pipeline.c:800-805) before the three
special outputs are appended: fragment-driven entries, then stream-out
entries. -/
def tu6_vpc_pre_linkage (last_shader : Variant) (fs : Option Variant) :
    ShaderLinkage :=
  let linkage : ShaderLinkage := ⟨[], 0, 0xff, 0⟩
  let linkage := match fs with
    | some f => ir3_link_shaders linkage last_shader f
    | none => linkage
  if last_shader.stream_output.length ≠ 0 then
    tu6_link_streamout linkage last_shader
  else linkage

/-- The special-output appending of `tu6_emit_vpc` (tu_pipeline.c:831-843):
layer, then position, then point size, each at the then-current `max_loc`,
each skipped when the producing stage does not emit it.  Returns the
linkage and `(position_loc, pointsize_loc, layer_loc)` (0xff when
absent). -/
def tu6_vpc_link_special (last_shader : Variant) (l : ShaderLinkage) :
    ShaderLinkage × Nat × Nat × Nat :=
  let position_regid := ir3_find_output_regid last_shader VARYING_SLOT_POS
  let pointsize_regid := ir3_find_output_regid last_shader VARYING_SLOT_PSIZ
  let layer_regid := ir3_find_output_regid last_shader VARYING_SLOT_LAYER
  let layer_loc := if layer_regid ≠ regid 63 0 then l.max_loc else 0xff
  let l1 := if layer_regid ≠ regid 63 0 then
      ir3_link_add l layer_regid 0x1 l.max_loc
    else l
  let position_loc := if position_regid ≠ regid 63 0 then l1.max_loc else 0xff
  let l2 := if position_regid ≠ regid 63 0 then
      ir3_link_add l1 position_regid 0xf l1.max_loc
    else l1
  let pointsize_loc := if pointsize_regid ≠ regid 63 0 then l2.max_loc else 0xff
  let l3 := if pointsize_regid ≠ regid 63 0 then
      ir3_link_add l2 pointsize_regid 0x1 l2.max_loc
    else l2
  (l3, position_loc, pointsize_loc, layer_loc)

/-- The linkage after the special outputs. -/
def tu6_vpc_linkage (last_shader : Variant) (fs : Option Variant) :
    ShaderLinkage :=
  (tu6_vpc_link_special last_shader (tu6_vpc_pre_linkage last_shader fs)).1

/-- The dummy-output fix-up of `tu6_emit_vpc` (tu_pipeline.c:852-853): if
there are no outputs at all, force a single dummy single-component
allocation. -/
def tu6_vpc_linkage_final (last_shader : Variant) (fs : Option Variant) :
    ShaderLinkage :=
  let l := tu6_vpc_linkage last_shader fs
  if l.var.length = 0 then ir3_link_add l 0 0x1 l.max_loc else l

/-! ## C5: linkage-map invariants -/

/-- Position/pointsize/layer locations as returned by the special-output
append step. -/
def vpc_position_loc (ls : Variant) (fs : Option Variant) : Nat :=
  (tu6_vpc_link_special ls (tu6_vpc_pre_linkage ls fs)).2.1

def vpc_pointsize_loc (ls : Variant) (fs : Option Variant) : Nat :=
  (tu6_vpc_link_special ls (tu6_vpc_pre_linkage ls fs)).2.2.1

def vpc_layer_loc (ls : Variant) (fs : Option Variant) : Nat :=
  (tu6_vpc_link_special ls (tu6_vpc_pre_linkage ls fs)).2.2.2

/-- Well-formedness of a linkage map: entry locations strictly increase in
append order, and every entry has a non-empty component mask and fits below
`max_loc`. -/
def LinkWF (l : ShaderLinkage) : Prop :=
  l.var.Pairwise (fun a b => a.loc < b.loc) ∧
  ∀ e ∈ l.var, e.compmask ≠ 0 ∧ e.loc + util_last_bit e.compmask ≤ l.max_loc

theorem util_last_bit_pos {m : Nat} (h : m ≠ 0) : 0 < util_last_bit m := by
  unfold util_last_bit last_bit_aux
  simp [h]

theorem linkWF_lt_max {l : ShaderLinkage} (h : LinkWF l) :
    ∀ e ∈ l.var, e.loc < l.max_loc := by
  intro e he
  have := h.2 e he
  have := util_last_bit_pos this.1
  omega

theorem linkWF_link_add {l : ShaderLinkage} (r mask loc : Nat) (h : LinkWF l)
    (hm : mask ≠ 0) (hloc : ∀ e ∈ l.var, e.loc < loc) :
    LinkWF (ir3_link_add l r mask loc) := by
  constructor
  · refine List.pairwise_append.2 ⟨h.1, List.pairwise_singleton _ _, ?_⟩
    intro a ha b hb
    rw [List.mem_singleton] at hb
    subst hb
    exact hloc a ha
  · intro e he
    rcases List.mem_append.1 he with he | he
    · exact ⟨(h.2 e he).1, le_trans (h.2 e he).2 (le_max_left _ _)⟩
    · rw [List.mem_singleton] at he
      subst he
      exact ⟨hm, le_max_right _ _⟩

theorem linkWF_link_add_max {l : ShaderLinkage} (r mask : Nat) (h : LinkWF l)
    (hm : mask ≠ 0) : LinkWF (ir3_link_add l r mask l.max_loc) :=
  linkWF_link_add r mask l.max_loc h hm (linkWF_lt_max h)

theorem link_add_max_loc (l : ShaderLinkage) (r mask loc : Nat) :
    (ir3_link_add l r mask loc).max_loc =
      max l.max_loc (loc + util_last_bit mask) := rfl

theorem link_add_max_loc_of_max (l : ShaderLinkage) (r mask : Nat) :
    (ir3_link_add l r mask l.max_loc).max_loc =
      l.max_loc + util_last_bit mask := by
  rw [link_add_max_loc]
  omega

theorem linkWF_primid {l : ShaderLinkage} (h : LinkWF l) (p : Nat) :
    LinkWF { l with primid_loc := p } := h

/-- Folding a WF-preserving step preserves WF. -/
theorem linkWF_foldl {α : Type} (f : ShaderLinkage → α → ShaderLinkage)
    (xs : List α) (l : ShaderLinkage) (h : LinkWF l)
    (hf : ∀ l' a, a ∈ xs → LinkWF l' → LinkWF (f l' a)) :
    LinkWF (xs.foldl f l) := by
  induction xs generalizing l with
  | nil => exact h
  | cons a xs ih =>
    exact ih _ (hf l a (List.mem_cons_self a xs) h)
      fun l' b hb => hf l' b (List.mem_cons_of_mem a hb)

theorem linkWF_ir3_link_shaders {l : ShaderLinkage} (p c : Variant)
    (h : LinkWF l) : LinkWF (ir3_link_shaders l p c) := by
  unfold ir3_link_shaders
  refine linkWF_foldl _ _ _ h fun l' inp _ hwf => ?_
  dsimp only
  split
  · rename_i hc
    split
    · rename_i o ho
      split
      · exact linkWF_primid (linkWF_link_add_max _ _ hwf hc.1) _
      · exact linkWF_link_add_max _ _ hwf hc.1
    · exact hwf
  · exact hwf

theorem foldl_max_loc_acc_le (xs : List LinkEntry) (a : Nat) :
    a ≤ xs.foldl (fun n e => max n (e.loc + 4)) a := by
  induction xs generalizing a with
  | nil => exact le_refl a
  | cons x xs ih => exact le_trans (le_max_left _ _) (ih _)

theorem foldl_max_loc_lt (xs : List LinkEntry) (a : Nat) :
    ∀ e ∈ xs, e.loc < xs.foldl (fun n e => max n (e.loc + 4)) a := by
  induction xs generalizing a with
  | nil => intro e he; cases he
  | cons x xs ih =>
    intro e he
    rw [List.foldl_cons]
    rcases List.mem_cons.1 he with he | he
    · subst he
      have h1 := foldl_max_loc_acc_le xs (max a (e.loc + 4))
      have h2 : e.loc + 4 ≤ max a (e.loc + 4) := le_max_right _ _
      omega
    · exact ih _ e he

theorem List.set_same {α : Type} {xs : List α} {i : Nat} {v : α}
    (h : xs.get? i = some v) : xs.set i v = xs := by
  induction xs generalizing i with
  | nil => rfl
  | cons x xs ih =>
    cases i with
    | zero =>
      simp only [List.get?] at h
      injection h with h
      simp [h]
    | succ i =>
      simp only [List.get?] at h
      simp [ih h]

theorem pairwise_loc_set {l : List LinkEntry} {i : Nat} {e e' : LinkEntry}
    (hg : l.get? i = some e) (hl : e'.loc = e.loc)
    (hp : l.Pairwise fun a b => a.loc < b.loc) :
    (l.set i e').Pairwise fun a b => a.loc < b.loc := by
  induction l generalizing i with
  | nil => simp
  | cons x xs ih =>
    cases i with
    | zero =>
      simp only [List.get?] at hg
      injection hg with hg
      subst hg
      rw [List.set]
      rw [List.pairwise_cons] at hp ⊢
      exact ⟨fun b hb => hl ▸ hp.1 b hb, hp.2⟩
    | succ i =>
      simp only [List.get?] at hg
      rw [List.set]
      rw [List.pairwise_cons] at hp ⊢
      refine ⟨?_, ih hg hp.2⟩
      intro b hb
      rcases List.mem_or_eq_of_mem_set hb with hb | hb
      · exact hp.1 b hb
      · subst hb
        have : e ∈ xs := List.get?_mem hg
        exact hl ▸ hp.1 e this

theorem nat_or_ne_zero_left (a b : Nat) (h : a ≠ 0) : a ||| b ≠ 0 := by
  intro hz
  apply h
  apply Nat.eq_of_testBit_eq
  intro i
  have := congrArg (fun n => n.testBit i) hz
  simp only [Nat.testBit_or, Nat.zero_testBit, Bool.or_eq_false_iff] at this
  simp [this.1]

theorem linkWF_streamout_step {l : ShaderLinkage} (v : Variant)
    (out : StreamOutput) (h : LinkWF l)
    (hnc : out.num_components + out.start_component ≠ 0) :
    LinkWF (tu6_link_streamout_step v l out) := by
  unfold tu6_link_streamout_step
  dsimp only
  split
  · exact h
  · rename_i vout hvout
    split
    · exact h
    · split
      · rename_i idx hidx
        split
        · exact h
        · rename_i e hget
          split
          · constructor
            · exact pairwise_loc_set hget rfl h.1
            · intro x hx
              rcases List.mem_or_eq_of_mem_set hx with hx | hx
              · refine ⟨(h.2 x hx).1, le_trans (h.2 x hx).2 (le_max_left _ _)⟩
              · subst hx
                refine ⟨?_, le_max_right _ _⟩
                exact nat_or_ne_zero_left _ _ (h.2 e (List.get?_mem hget)).1
          · exact h
      · refine linkWF_link_add _ _ _ h ?_ (foldl_max_loc_lt _ _)
        have : 0 < out.num_components + out.start_component := Nat.pos_of_ne_zero hnc
        have : (2 : Nat) ≤ 2 ^ (out.num_components + out.start_component) := by
          calc (2 : Nat) = 2 ^ 1 := rfl
          _ ≤ 2 ^ (out.num_components + out.start_component) :=
            Nat.pow_le_pow_right (by norm_num) this
        simp only [Nat.shiftLeft_eq, Nat.one_mul, ne_eq]
        omega

theorem linkWF_streamout {l : ShaderLinkage} (v : Variant) (h : LinkWF l)
    (hso : ∀ o ∈ v.stream_output, o.num_components + o.start_component ≠ 0) :
    LinkWF (tu6_link_streamout l v) := by
  unfold tu6_link_streamout
  exact linkWF_foldl _ _ _ h fun l' o ho hwf =>
    linkWF_streamout_step v o hwf (hso o ho)

theorem linkWF_pre_linkage (ls : Variant) (fs : Option Variant)
    (hso : ∀ o ∈ ls.stream_output, o.num_components + o.start_component ≠ 0) :
    LinkWF (tu6_vpc_pre_linkage ls fs) := by
  unfold tu6_vpc_pre_linkage
  have hbase : LinkWF ⟨[], 0, 0xff, 0⟩ := ⟨List.Pairwise.nil, by simp⟩
  have hlinked : LinkWF (match fs with
      | some f => ir3_link_shaders ⟨[], 0, 0xff, 0⟩ ls f
      | none => ⟨[], 0, 0xff, 0⟩) := by
    cases fs with
    | none => exact hbase
    | some f => exact linkWF_ir3_link_shaders ls f hbase
  dsimp only
  split
  · exact linkWF_streamout ls hlinked hso
  · exact hlinked

theorem linkWF_vpc_linkage (ls : Variant) (fs : Option Variant)
    (hso : ∀ o ∈ ls.stream_output, o.num_components + o.start_component ≠ 0) :
    LinkWF (tu6_vpc_linkage ls fs) := by
  have h := linkWF_pre_linkage ls fs hso
  unfold tu6_vpc_linkage tu6_vpc_link_special
  dsimp only
  split
  · split
    · split
      · exact linkWF_link_add_max _ _
          (linkWF_link_add_max _ _ (linkWF_link_add_max _ _ h (by decide))
            (by decide)) (by decide)
      · exact linkWF_link_add_max _ _ (linkWF_link_add_max _ _ h (by decide))
          (by decide)
    · split
      · exact linkWF_link_add_max _ _ (linkWF_link_add_max _ _ h (by decide))
          (by decide)
      · exact linkWF_link_add_max _ _ h (by decide)
  · split
    · split
      · exact linkWF_link_add_max _ _ (linkWF_link_add_max _ _ h (by decide))
          (by decide)
      · exact linkWF_link_add_max _ _ h (by decide)
    · split
      · exact linkWF_link_add_max _ _ h (by decide)
      · exact h

theorem linkWF_vpc_linkage_final (ls : Variant) (fs : Option Variant)
    (hso : ∀ o ∈ ls.stream_output, o.num_components + o.start_component ≠ 0) :
    LinkWF (tu6_vpc_linkage_final ls fs) := by
  have h := linkWF_vpc_linkage ls fs hso
  unfold tu6_vpc_linkage_final
  dsimp only
  split
  · exact linkWF_link_add_max _ _ h (by decide)
  · exact h

/-- `ls` emits a layer output. -/
def has_layer_output (ls : Variant) : Prop :=
  ir3_find_output_regid ls VARYING_SLOT_LAYER ≠ regid 63 0

/-- `ls` emits a position output. -/
def has_position_output (ls : Variant) : Prop :=
  ir3_find_output_regid ls VARYING_SLOT_POS ≠ regid 63 0

/-- `ls` emits a point-size output. -/
def has_pointsize_output (ls : Variant) : Prop :=
  ir3_find_output_regid ls VARYING_SLOT_PSIZ ≠ regid 63 0

/-- C5 (amended): in the linkage map produced for a pipeline, no two
entries share a packed location; the three special outputs are appended
after all consumer-driven (and stream-out) entries in the fixed order
layer, position, point size — so each present special output's location
exceeds every earlier entry's location, and among the specials the layer
(not the point size) gets the lowest and the point size the highest of the
three; and if zero entries are present after linking, exactly one dummy
single-component allocation is forced.  (For the stream-out hypotheses:
well-formed stream-out records capture at least one component.) -/
theorem C5_linkage_injective_special_append (ls : Variant)
    (fs : Option Variant)
    (hso : ∀ o ∈ ls.stream_output, o.num_components + o.start_component ≠ 0) :
    ((tu6_vpc_linkage_final ls fs).var.Pairwise fun a b => a.loc ≠ b.loc) ∧
    (has_layer_output ls →
      ∀ e ∈ (tu6_vpc_pre_linkage ls fs).var, e.loc < vpc_layer_loc ls fs) ∧
    (has_position_output ls →
      ∀ e ∈ (tu6_vpc_pre_linkage ls fs).var, e.loc < vpc_position_loc ls fs) ∧
    (has_pointsize_output ls →
      ∀ e ∈ (tu6_vpc_pre_linkage ls fs).var, e.loc < vpc_pointsize_loc ls fs) ∧
    (has_layer_output ls → has_position_output ls →
      vpc_layer_loc ls fs < vpc_position_loc ls fs) ∧
    (has_position_output ls → has_pointsize_output ls →
      vpc_position_loc ls fs < vpc_pointsize_loc ls fs) ∧
    (has_layer_output ls → has_pointsize_output ls →
      vpc_layer_loc ls fs < vpc_pointsize_loc ls fs) ∧
    ((tu6_vpc_linkage ls fs).var = [] →
      tu6_vpc_linkage_final ls fs =
        ir3_link_add (tu6_vpc_linkage ls fs) 0 0x1
          (tu6_vpc_linkage ls fs).max_loc) := by
  have hwf := linkWF_pre_linkage ls fs hso
  have hbit1 : util_last_bit 0x1 = 1 := by decide
  have hbitf : util_last_bit 0xf = 4 := by decide
  refine ⟨(linkWF_vpc_linkage_final ls fs hso).1.imp ne_of_lt,
    ?_, ?_, ?_, ?_, ?_, ?_, ?_⟩
  · intro hL e he
    have hL' : ir3_find_output_regid ls VARYING_SLOT_LAYER ≠ regid 63 0 := hL
    simp only [vpc_layer_loc, tu6_vpc_link_special]
    rw [if_pos hL']
    exact linkWF_lt_max hwf e he
  · intro hP e he
    have hP' : ir3_find_output_regid ls VARYING_SLOT_POS ≠ regid 63 0 := hP
    simp only [vpc_position_loc, tu6_vpc_link_special]
    rw [if_pos hP']
    have h0 := linkWF_lt_max hwf e he
    by_cases hL : ir3_find_output_regid ls VARYING_SLOT_LAYER ≠ regid 63 0
    · simp only [if_pos hL, link_add_max_loc_of_max]
      omega
    · simp only [if_neg hL]
      exact h0
  · intro hS e he
    have hS' : ir3_find_output_regid ls VARYING_SLOT_PSIZ ≠ regid 63 0 := hS
    simp only [vpc_pointsize_loc, tu6_vpc_link_special]
    rw [if_pos hS']
    have h0 := linkWF_lt_max hwf e he
    by_cases hP : ir3_find_output_regid ls VARYING_SLOT_POS ≠ regid 63 0 <;>
      by_cases hL : ir3_find_output_regid ls VARYING_SLOT_LAYER ≠ regid 63 0
    · simp only [if_pos hP, if_pos hL, link_add_max_loc]
      omega
    · simp only [if_pos hP, if_neg hL, link_add_max_loc_of_max]
      omega
    · simp only [if_neg hP, if_pos hL, link_add_max_loc_of_max]
      omega
    · simp only [if_neg hP, if_neg hL]
      exact h0
  · intro hL hP
    have hL' : ir3_find_output_regid ls VARYING_SLOT_LAYER ≠ regid 63 0 := hL
    have hP' : ir3_find_output_regid ls VARYING_SLOT_POS ≠ regid 63 0 := hP
    simp only [vpc_layer_loc, vpc_position_loc, tu6_vpc_link_special]
    simp only [if_pos hL', if_pos hP', link_add_max_loc_of_max]
    omega
  · intro hP hS
    have hP' : ir3_find_output_regid ls VARYING_SLOT_POS ≠ regid 63 0 := hP
    have hS' : ir3_find_output_regid ls VARYING_SLOT_PSIZ ≠ regid 63 0 := hS
    simp only [vpc_position_loc, vpc_pointsize_loc, tu6_vpc_link_special]
    simp only [if_pos hP', if_pos hS', link_add_max_loc_of_max]
    omega
  · intro hL hS
    have hL' : ir3_find_output_regid ls VARYING_SLOT_LAYER ≠ regid 63 0 := hL
    have hS' : ir3_find_output_regid ls VARYING_SLOT_PSIZ ≠ regid 63 0 := hS
    simp only [vpc_layer_loc, vpc_pointsize_loc, tu6_vpc_link_special]
    by_cases hP : ir3_find_output_regid ls VARYING_SLOT_POS ≠ regid 63 0
    · simp only [if_pos hL', if_pos hS', if_pos hP, link_add_max_loc]
      omega
    · simp only [if_pos hL', if_pos hS', if_neg hP, link_add_max_loc_of_max]
      omega
  · intro hv
    unfold tu6_vpc_linkage_final
    rw [if_pos (by rw [hv]; rfl)]

/-- A producing stage emitting position, point size and layer (and nothing
else), used to exhibit the append order of the three special outputs. -/
def vpc_order_example : Variant :=
  { typ := MESA_SHADER_VERTEX
    outputs := [⟨VARYING_SLOT_POS, 0, 0xf, 0, false, false, false⟩,
                ⟨VARYING_SLOT_PSIZ, 4, 0x1, 0, false, false, false⟩,
                ⟨VARYING_SLOT_LAYER, 8, 0x1, 0, false, false, false⟩]
    inputs := []
    sysvals := []
    stream_output := []
    bin := []
    instrlen := 0
    constlen := 0
    offset_immediate := 0
    offset_primitive_param := 0
    offset_primitive_map := 0
    immediates := []
    max_reg := 0
    max_half_reg := 0
    branchstack := 0
    mergedregs := false
    need_pixlod := false
    need_fine_derivatives := false
    bindless_tex := false
    bindless_samp := false
    bindless_ibo := false
    bindless_ubo := false
    num_samp := 0
    total_in := 0
    writes_pos := true
    writes_smask := false
    writes_stencilref := false
    no_earlyz := false
    has_kill := false
    per_samp := false
    frag_face := false
    fragcoord_compmask := 0
    color0_mrt := false
    sampler_prefetch := []
    key_sample_shading := false
    output_size := 6
    nir := none }

/-- C5 counterexample: with position, point size and layer all emitted, the
special outputs are appended in the order layer (location 0), position
(location 1), point size (location 5) — so they are not appended in the
claimed fixed order position, point size, layer, and layer occupies the
lowest (not the highest) of the three locations. -/
theorem C5_counterexample_special_append_order :
    vpc_layer_loc vpc_order_example none = 0 ∧
    vpc_position_loc vpc_order_example none = 1 ∧
    vpc_pointsize_loc vpc_order_example none = 5 ∧
    ¬ (vpc_pointsize_loc vpc_order_example none <
        vpc_layer_loc vpc_order_example none) := by
  refine ⟨rfl, rfl, rfl, by decide⟩

/-- Witness for C5 at a concrete producing stage, discharging the
stream-out well-formedness hypothesis and the presence hypotheses. -/
theorem C5_witness :
    vpc_layer_loc vpc_order_example none <
      vpc_position_loc vpc_order_example none ∧
    ((tu6_vpc_linkage_final vpc_order_example none).var.Pairwise
      fun a b => a.loc ≠ b.loc) := by
  have h := C5_linkage_injective_special_append vpc_order_example none
    (by intro o ho; cases ho)
  refine ⟨h.2.2.2.2.1 ?_ ?_, h.1⟩ <;>
    · show ir3_find_output_regid vpc_order_example _ ≠ regid 63 0
      decide

/-! ## Shader-stage configuration (tu6_emit_xs_config)

System-value enumerators (external mesa `gl_system_value` /
`gl_frag_result` values; only identity matters here; the barycentric
values are consecutive as the source indexes them by `+ i`). -/

def SYSTEM_VALUE_VERTEX_ID : Nat := 0

def SYSTEM_VALUE_INSTANCE_ID : Nat := 1

def SYSTEM_VALUE_PRIMITIVE_ID : Nat := 2

def SYSTEM_VALUE_TESS_COORD : Nat := 3

def SYSTEM_VALUE_TCS_HEADER_IR3 : Nat := 4

def SYSTEM_VALUE_GS_HEADER_IR3 : Nat := 5

def SYSTEM_VALUE_SAMPLE_ID : Nat := 6

def SYSTEM_VALUE_SAMPLE_MASK_IN : Nat := 7

def SYSTEM_VALUE_FRONT_FACE : Nat := 8

def SYSTEM_VALUE_FRAG_COORD : Nat := 9

def SYSTEM_VALUE_BARYCENTRIC_PERSP_PIXEL : Nat := 10

def IJ_PERSP_PIXEL : Nat := 0

def IJ_PERSP_SAMPLE : Nat := 1

def IJ_PERSP_CENTROID : Nat := 2

def IJ_PERSP_SIZE : Nat := 3

def IJ_LINEAR_PIXEL : Nat := 4

def IJ_LINEAR_CENTROID : Nat := 5

def IJ_LINEAR_SAMPLE : Nat := 6

def IJ_COUNT : Nat := 7

def FRAG_RESULT_DEPTH : Nat := 100

def FRAG_RESULT_STENCIL : Nat := 101

def FRAG_RESULT_SAMPLE_MASK : Nat := 102

def FRAG_RESULT_COLOR : Nat := 103

def FRAG_RESULT_DATA0 : Nat := 104

def TWO_QUADS : Nat := 0

def FOUR_QUADS : Nat := 1

def CP_CONTEXT_REG_BUNCH : Nat := 0x5c

/-- `DIV_ROUND_UP` -/
def DIV_ROUND_UP (a b : Nat) : Nat := (a + b - 1) / b

/-- `align(v, a)` for a power-of-two `a`. -/
def align (v a : Nat) : Nat := DIV_ROUND_UP v a * a

/-- `tu6_emit_xs_config` (tu_pipeline.c:328): per-stage control/config
registers, binary upload command and immediates upload.  A disabled stage
(`xs = none`) still emits a zeroed config/control pair. -/
def tu6_emit_xs_config (stage : Nat) (xs : Option Variant)
    (binary_iova : Nat) : List Dword :=
  match xs with
  | none =>
    [.pkt4 .spXsConfig stage 1, .raw 0,
     .pkt4 .hlsqXsCntl stage 1, .raw 0]
  | some xs =>
    let is_fs := xs.typ = MESA_SHADER_FRAGMENT
    let threadsize := if xs.typ = MESA_SHADER_GEOMETRY then TWO_QUADS
      else FOUR_QUADS
    [.pkt4 .spXsCtrlReg0 stage 1,
     .reg .spXsCtrlReg0
       [(threadsize : Int), (xs.max_reg + 1 : Nat), (xs.max_half_reg + 1 : Nat),
        bit xs.mergedregs, (xs.branchstack : Int), bit xs.need_pixlod,
        bit xs.need_fine_derivatives, bit (xs.total_in ≠ 0 && is_fs),
        bit is_fs],
     .pkt4 .spXsConfig stage 2,
     .reg .spXsConfig
       [1, bit xs.bindless_tex, bit xs.bindless_samp, bit xs.bindless_ibo,
        bit xs.bindless_ubo, (xs.num_samp : Int), (xs.num_samp : Int)],
     .raw xs.instrlen,
     .pkt4 .hlsqXsCntl stage 1,
     .reg .hlsqXsCntl [(xs.constlen : Int), 1],
     .pkt4 .spXsObjStart stage 2]
    ++ tu_cs_emit_qw binary_iova
    ++ [.pkt7 (tu6_stage2opcode stage) 3,
        .reg .loadState6_0
          [0, (ST6_SHADER : Int), (SS6_INDIRECT : Int),
           (tu6_stage2shadersb stage : Int), (xs.instrlen : Int)]]
    ++ tu_cs_emit_qw binary_iova
    ++ (let base := xs.offset_immediate
        let size : Int := DIV_ROUND_UP xs.immediates.length 4
        let size : Int := min (size + base) (xs.constlen : Int) - base
        if size ≤ 0 then []
        else
          [.pkt7 (tu6_stage2opcode stage) (3 + size.toNat * 4),
           .reg .loadState6_0
             [(base : Int), (ST6_CONSTANTS : Int), (SS6_DIRECT : Int),
              (tu6_stage2shadersb stage : Int), size],
           .raw 0, .raw 0]
          ++ (List.range (size.toNat * 4)).map fun j =>
               .raw (xs.immediates.getD j 0))

/-- `tu6_emit_vs_system_values` (tu_pipeline.c:498).  The source
dereferences `ds` (resp. `hs`) only when `hs` is present; the builder
guarantees both stages appear together. -/
def tu6_emit_vs_system_values (vs : Variant) (hs ds gs : Option Variant)
    (primid_passthru : Bool) : List Dword :=
  let vertexid_regid := ir3_find_sysval_regid vs SYSTEM_VALUE_VERTEX_ID
  let instanceid_regid := ir3_find_sysval_regid vs SYSTEM_VALUE_INSTANCE_ID
  let tess_coord_x_regid := match hs, ds with
    | some _, some d => ir3_find_sysval_regid d SYSTEM_VALUE_TESS_COORD
    | _, _ => regid 63 0
  let tess_coord_y_regid := if VALIDREG tess_coord_x_regid then
      tess_coord_x_regid + 1
    else regid 63 0
  let hs_patch_regid := match hs with
    | some h => ir3_find_sysval_regid h SYSTEM_VALUE_PRIMITIVE_ID
    | none => regid 63 0
  let ds_patch_regid := match hs, ds with
    | some _, some d => ir3_find_sysval_regid d SYSTEM_VALUE_PRIMITIVE_ID
    | _, _ => regid 63 0
  let hs_invocation_regid := match hs with
    | some h => ir3_find_sysval_regid h SYSTEM_VALUE_TCS_HEADER_IR3
    | none => regid 63 0
  let primitiveid_regid := match gs with
    | some g => ir3_find_sysval_regid g SYSTEM_VALUE_PRIMITIVE_ID
    | none => regid 63 0
  let gsheader_regid := match gs with
    | some g => ir3_find_sysval_regid g SYSTEM_VALUE_GS_HEADER_IR3
    | none => regid 63 0
  [.pkt4 .vfdControl1 0 6,
   .reg .vfdControl1
     [(vertexid_regid : Int), (instanceid_regid : Int),
      (primitiveid_regid : Int), 0xfc000000],
   .reg .vfdControl2 [(hs_patch_regid : Int), (hs_invocation_regid : Int)],
   .reg .vfdControl3
     [(ds_patch_regid : Int), (tess_coord_x_regid : Int),
      (tess_coord_y_regid : Int), 0xfc],
   .raw 0xfc,
   .reg .vfdControl5 [(gsheader_regid : Int), 0xfc00],
   .reg .vfdControl6 [bit primid_passthru]]

/-- One word of the `VPC_SO_PROG` program: the A/B halves written by
`tu6_setup_streamout`'s inner loop; numeric ORs into the packed fields are
modelled field-wise. -/
structure SoProgWord where
  a_en : Bool
  a_buf : Nat
  a_off : Nat
  b_en : Bool
  b_buf : Nat
  b_off : Nat
  deriving Repr, DecidableEq

def soProgZero : SoProgWord := ⟨false, 0, 0, false, 0, 0⟩

/-- `prog[loc/2] |= ...` for one captured component. -/
def so_prog_or (prog : Nat → SoProgWord) (loc buf off_bytes : Nat) :
    Nat → SoProgWord :=
  fun i =>
    if i = loc / 2 then
      let w := prog i
      if loc % 2 = 1 then
        { w with b_en := true, b_buf := w.b_buf ||| buf,
                 b_off := w.b_off ||| off_bytes }
      else
        { w with a_en := true, a_buf := w.a_buf ||| buf,
                 a_off := w.a_off ||| off_bytes }
    else prog i

/-- The `ncomp` totals and `prog` words of `tu6_setup_streamout`
(tu_pipeline.c:621-656). -/
def tu6_setup_streamout_state (v : Variant) (l : ShaderLinkage) :
    (Nat → Nat) × (Nat → SoProgWord) :=
  v.stream_output.foldl
    (fun (st : (Nat → Nat) × (Nat → SoProgWord)) out =>
      let (ncomp, prog) := st
      match v.outputs.get? out.register_index with
      | none => st
      | some vout =>
        -- skip it, if there is an unused reg in the middle of outputs
        if vout.regid = INVALID_REG then st
        else
          let ncomp := fun b =>
            if b = out.output_buffer then ncomp b + out.num_components
            else ncomp b
          match l.var.findIdx? fun e => e.regid = vout.regid with
          | none => (ncomp, prog)  -- debug_assert(idx < l->cnt)
          | some idx =>
            match l.var.get? idx with
            | none => (ncomp, prog)
            | some e =>
              let prog := (List.range out.num_components).foldl
                (fun prog j =>
                  let c := j + out.start_component
                  let loc := e.loc + c
                  let off := j + out.dst_offset
                  so_prog_or prog loc out.output_buffer (off * 4))
                prog
              (ncomp, prog))
    ((fun _ => 0), (fun _ => soProgZero))

/-- `tu6_setup_streamout` (tu_pipeline.c:597). -/
def tu6_setup_streamout (v : Variant) (l : ShaderLinkage) : List Dword :=
  let prog_count := align l.max_loc 2 / 2
  if v.stream_output.length = 0 then
    [.pkt7 CP_CONTEXT_REG_BUNCH 4,
     .regAddr .vpcSoCntl 0, .raw 0,
     .regAddr .vpcSoBufCntl 0, .raw 0]
  else
    let (ncomp, prog) := tu6_setup_streamout_state v l
    [.pkt7 CP_CONTEXT_REG_BUNCH (12 + 2 * prog_count),
     .regAddr .vpcSoBufCntl 0,
     .reg .vpcSoBufCntl
       [1, bit (0 < ncomp 0), bit (0 < ncomp 1), bit (0 < ncomp 2),
        bit (0 < ncomp 3)]]
    ++ ((List.range 4).flatMap fun i =>
        [.regAddr .vpcSoNcomp i, .raw (ncomp i)])
    ++ [.regAddr .vpcSoCntl 0, .reg .vpcSoCntl [1]]
    ++ ((List.range prog_count).flatMap fun i =>
        let w := prog i
        [.regAddr .vpcSoProg 0,
         .reg .vpcSoProg
           [bit w.a_en, (w.a_buf : Int), (w.a_off : Int),
            bit w.b_en, (w.b_buf : Int), (w.b_off : Int)]])

/-- `tu6_emit_const` (tu_pipeline.c:678): a direct constant upload of
`size` dwords (`size % 4 == 0`), read from `dwords` at a byte offset. -/
def tu6_emit_const (opcode base block offset size : Nat)
    (dwords : List Nat) : List Dword :=
  [.pkt7 opcode (3 + size),
   .reg .loadState6_0
     [(base : Int), (ST6_CONSTANTS : Int), (SS6_DIRECT : Int), (block : Int),
      (size / 4 : Nat)],
   .raw 0, .raw 0]
  ++ (List.range size).map fun j => .raw (dwords.getD (offset / 4 + j) 0)

/-- Modelled from the spec: `ir3_link_geometry_stages` is an external ir3
linkage helper (spec §4.3/§4.4 treats cross-stage linkage internals as the
resolver's own); only the number of patch locations it returns matters to
the emission, modelled as four locations per producer output; the location
payload itself is external and carried as zeros. -/
def ir3_link_geometry_stages (producer _consumer : Variant) : Nat :=
  4 * producer.outputs.length

/-- `tu6_emit_link_map` (tu_pipeline.c:698). -/
def tu6_emit_link_map (producer consumer : Variant) (sb : Nat) :
    List Dword :=
  let base := consumer.offset_primitive_map
  let num_loc := ir3_link_geometry_stages producer consumer
  let size : Int := DIV_ROUND_UP num_loc 4
  let size : Int := (min (size + base) (consumer.constlen : Int) - base) * 4
  if size ≤ 0 then []
  else tu6_emit_const CP_LOAD_STATE6_GEOM base sb 0 size.toNat []

/-- `gl_primitive_to_tess` (tu_pipeline.c:718); GL primitive enums and
`a6xx_tess_output` enums are external; `TESS_POINTS`/`TESS_LINES`/
`TESS_CW_TRIS`/`TESS_CCW_TRIS` are modelled as 0-3, GL_POINTS = 0,
GL_LINE_STRIP = 3, GL_TRIANGLE_STRIP = 5 (their gl.h values mod small). -/
def TESS_POINTS : Nat := 0

def TESS_LINES : Nat := 1

def TESS_CW_TRIS : Nat := 2

def TESS_CCW_TRIS : Nat := 3

def GL_POINTS : Nat := 0

def GL_LINE_STRIP : Nat := 3

def GL_TRIANGLE_STRIP : Nat := 5

def GL_ISOLINES : Nat := 0x8E7A

def GL_TRIANGLES : Nat := 4

def GL_QUADS : Nat := 7

def gl_primitive_to_tess (primitive : Nat) : Nat :=
  if primitive = GL_POINTS then TESS_POINTS
  else if primitive = GL_LINE_STRIP then TESS_LINES
  else if primitive = GL_TRIANGLE_STRIP then TESS_CW_TRIS
  else 0  -- unreachable

/-! ## VPC emission -/

/-- Zero `shader_info`, for dereferences guarded by stage presence. -/
def nirZero : NirInfo := ⟨0, 0, .unspecified, false, false, 0, 0, 0, 0, 0⟩

def Variant.nirInfo (v : Variant) : NirInfo := v.nir.getD nirZero

def TESS_EQUAL : Nat := 0

def TESS_FRACTIONAL_ODD : Nat := 1

def TESS_FRACTIONAL_EVEN : Nat := 2

/-- The tessellation block of `tu6_emit_vpc` (tu_pipeline.c:946-987). -/
def tu6_emit_vpc_hs_block (vs : Variant) (hs ds : Option Variant)
    (patch_control_points : Nat) (vshs_workgroup : Bool) : List Dword :=
  (match hs with
      | none => []
      | some h =>
        let hs_info := h.nirInfo
        let ds_v := ds.getD vs
        let unknown_a831 := if vshs_workgroup then
            let wavesize := 64
            let prims_per_wave := wavesize / hs_info.tcs_vertices_out
            let total_size := vs.output_size * patch_control_points *
              prims_per_wave
            DIV_ROUND_UP total_size wavesize
          else vs.output_size
        let tess_info := if ds_v.nirInfo.tess_spacing = .unspecified then
            h.nirInfo
          else ds_v.nirInfo
        let output := if tess_info.tess_point_mode then TESS_POINTS
          else if tess_info.tess_primitive_mode = GL_ISOLINES then TESS_LINES
          else if tess_info.tess_ccw then TESS_CCW_TRIS
          else TESS_CW_TRIS
        let spacing := match tess_info.tess_spacing with
          | .equal => TESS_EQUAL
          | .fractionalOdd => TESS_FRACTIONAL_ODD
          | .fractionalEven => TESS_FRACTIONAL_EVEN
          | .unspecified => 0  -- unreachable("invalid tess spacing")
        [.pkt4 .pcTessNumVertex 0 1, .raw hs_info.tcs_vertices_out,
         .pkt4 .pcHsInputSize 0 1,
         .raw (patch_control_points * vs.output_size / 4),
         .pkt4 .spHsUnknownA831 0 1, .raw unknown_a831,
         .pkt4 .pcTessCntl 0 1,
         .reg .pcTessCntl [(spacing : Int), (output : Int)]]
        ++ tu6_emit_link_map vs h SB6_HS_SHADER
        ++ tu6_emit_link_map h ds_v SB6_DS_SHADER)

/-- The geometry block of `tu6_emit_vpc` (tu_pipeline.c:989-1018). -/
def tu6_emit_vpc_gs_block (vs : Variant) (hs ds gs : Option Variant) :
    List Dword :=
  (match gs with
      | none => []
      | some g =>
        let link := if g.nir.isSome then
            match hs with
            | some _ => tu6_emit_link_map (ds.getD vs) g SB6_GS_SHADER
            | none => tu6_emit_link_map vs g SB6_GS_SHADER
          else []
        let params : Nat × Nat × Nat × Nat := match g.nir with
          | some ni =>
            (ni.gs_vertices_out - 1,
             gl_primitive_to_tess ni.gs_output_primitive,
             ni.gs_invocations - 1,
             ni.gs_vertices_in * DIV_ROUND_UP vs.output_size 4)
          | none => (3, TESS_CW_TRIS, 0, 0)
        link
        ++ [.pkt4 .pcPrimitiveCntl5 0 1,
            .reg .pcPrimitiveCntl5
              [(params.1 : Int), (params.2.1 : Int), (params.2.2.1 : Int)],
            .pkt4 .pcPrimitiveCntl3 0 1, .raw 0,
            .pkt4 .vpcUnknown9100 0 1, .raw 0xff,
            .pkt4 .pcPrimitiveCntl6 0 1,
            .reg .pcPrimitiveCntl6 [(params.2.2.2 : Int)],
            .pkt4 .pcUnknown9B07 0 1, .raw 0,
            .pkt4 .spGsPrimSize 0 1, .raw vs.output_size])

/-- The linkage paragraph of `tu6_emit_vpc` (tu_pipeline.c:845-944):
stream-output setup, `SP_VS_OUT_REG`/`SP_VS_VPC_DST_REG` (with the
uninitialised-stack words `garb_out`/`garb_dst`), and the packing
registers. -/
def tu6_emit_vpc_link_block (last_shader : Variant) (gs fs : Option Variant)
    (garb_out garb_dst : Nat) : List Dword :=
  let cfg := last_shader.typ
  let pre := tu6_vpc_pre_linkage last_shader fs
  let primid_passthru := pre.primid_loc ≠ 0xff
  let spec := tu6_vpc_link_special last_shader pre
      let l3 := spec.1
      let position_loc := spec.2.1
      let pointsize_loc := spec.2.2.1
      let layer_loc := spec.2.2.2
      let pointsize_regid := ir3_find_output_regid last_shader VARYING_SLOT_PSIZ
      let layer_regid := ir3_find_output_regid last_shader VARYING_SLOT_LAYER
      let primitive_regid := match gs with
        | some g => ir3_find_sysval_regid g SYSTEM_VALUE_PRIMITIVE_ID
        | none => regid 63 0
      let flags_regid := match gs with
        | some g => ir3_find_output_regid g VARYING_SLOT_GS_VERTEX_FLAGS_IR3
        | none => 0
      tu6_setup_streamout last_shader l3
      ++ (let linkage := if l3.var.length = 0 then
              ir3_link_add l3 0 0x1 l3.max_loc
            else l3
          let cnt := linkage.var.length
          let sp_out_count := DIV_ROUND_UP cnt 2
          let sp_vpc_dst_count := DIV_ROUND_UP cnt 4
          [.pkt4 .spVsOutReg cfg sp_out_count]
          ++ ((List.range sp_out_count).map fun i =>
              .reg .spVsOutReg
                ((match linkage.var.get? (2 * i) with
                  | some e => [(e.regid : Int), (e.compmask : Int)]
                  | none => [(garb_out : Int), (garb_out : Int)]) ++
                 (match linkage.var.get? (2 * i + 1) with
                  | some e => [(e.regid : Int), (e.compmask : Int)]
                  | none => [(garb_out : Int)])))
          ++ [.pkt4 .spVsVpcDstReg cfg sp_vpc_dst_count]
          ++ ((List.range sp_vpc_dst_count).map fun i =>
              .reg .spVsVpcDstReg ((List.range 4).map fun j =>
                match linkage.var.get? (4 * i + j) with
                | some e => (e.loc : Int)
                | none => (garb_dst : Int)))
          ++ [.pkt4 .vpcXsPack cfg 1,
              .reg .vpcXsPack
                [(position_loc : Int), (pointsize_loc : Int),
                 (linkage.max_loc : Int)],
              .pkt4 .vpcXsClipCntl cfg 1, .raw 0xffff00,
              .pkt4 .grasXsClCntl cfg 1, .raw 0,
              .pkt4 .pcXsOutCntl cfg 1,
              .reg .pcXsOutCntl
                [(linkage.max_loc : Int), bit (VALIDREG pointsize_regid),
                 bit (VALIDREG layer_regid), bit (VALIDREG primitive_regid)],
              .pkt4 .spXsPrimitiveCntl cfg 1,
              .reg .spXsPrimitiveCntl [(cnt : Int), (flags_regid : Int)],
              .pkt4 .vpcXsLayerCntl cfg 1,
              .reg .vpcXsLayerCntl [(layer_loc : Int), 0xff00],
              .pkt4 .grasXsLayerCntl cfg 1,
              .reg .grasXsLayerCntl [bit (VALIDREG layer_regid)],
              .pkt4 .pcPrimidPassthru 0 1,
              .reg .pcPrimidPassthru [bit primid_passthru],
              .pkt4 .vpcCntl0 0 1,
              .reg .vpcCntl0
                [((fs.map Variant.total_in).getD 0 : Int),
                 bit (fs.isSome && ((fs.map Variant.total_in).getD 0 ≠ 0)),
                 (linkage.primid_loc : Int), 0xff]])

/-- `tu6_emit_vpc` (tu_pipeline.c:732).  `garb_out` and `garb_dst` stand
for the uninitialised stack contents of the local arrays
`uint32_t sp_out[16]` / `uint32_t sp_vpc_dst[8]`: the source fills only
`linkage.cnt` 16-bit (resp. 8-bit) entries of them but emits
`DIV_ROUND_UP(linkage.cnt, 2)` (resp. 4) whole words, so the trailing
halves/bytes of the last emitted word are whatever was on the stack. -/
def tu6_emit_vpc (vs : Variant) (hs ds gs fs : Option Variant)
    (patch_control_points : Nat) (vshs_workgroup : Bool)
    (garb_out garb_dst : Nat) : List Dword :=
  let last_shader := match gs with
    | some g => g
    | none => match hs with
      | some _ => ds.getD vs
      | none => vs
  let pre := tu6_vpc_pre_linkage last_shader fs
  let primid_passthru := pre.primid_loc ≠ 0xff
  tu6_emit_vs_system_values vs hs ds gs primid_passthru
  ++ [.pkt4 .vpcVarDisable 0 4,
      .raw ((pre.varmask >>> 0) % 2 ^ 32 ^^^ 0xffffffff),
      .raw ((pre.varmask >>> 32) % 2 ^ 32 ^^^ 0xffffffff),
      .raw ((pre.varmask >>> 64) % 2 ^ 32 ^^^ 0xffffffff),
      .raw ((pre.varmask >>> 96) % 2 ^ 32 ^^^ 0xffffffff)]
  ++ tu6_emit_vpc_link_block last_shader gs fs garb_out garb_dst
  ++ tu6_emit_vpc_hs_block vs hs ds patch_control_points vshs_workgroup
  ++ tu6_emit_vpc_gs_block vs hs ds gs

/-! ## Varying interpolation modes -/

def INTERP_FLAT : Nat := 1

def INTERP_ZERO : Nat := 2

def INTERP_ONE : Nat := 3

def PS_REPL_S : Nat := 1

def PS_REPL_T : Nat := 2

/-- `tu6_vpc_varying_mode` (tu_pipeline.c:1021): returns
`(bits, interp_mode, ps_repl_mode)`. -/
def tu6_vpc_varying_mode (fs : Variant) (index : Nat) : Nat × Nat × Nat :=
  match fs.inputs.get? index with
  | none => (0, 0, 0)
  | some inp =>
    let compmask := inp.compmask
    if inp.slot = VARYING_SLOT_PNTC then
      let st : Nat × Nat × Nat := (0, 0, 0)
      let st := if compmask &&& 0x1 ≠ 0 then
          (st.1 + 2, st.2.1, st.2.2 ||| (PS_REPL_S <<< st.1))
        else st
      let st := if compmask &&& 0x2 ≠ 0 then
          (st.1 + 2, st.2.1, st.2.2 ||| (PS_REPL_T <<< st.1))
        else st
      let st := if compmask &&& 0x4 ≠ 0 then
          (st.1 + 2, st.2.1 ||| (INTERP_ZERO <<< st.1), st.2.2)
        else st
      -- note: the source shifts INTERP_ONE by the literal 6 here
      let st := if compmask &&& 0x8 ≠ 0 then
          (st.1 + 2, st.2.1 ||| (INTERP_ONE <<< 6), st.2.2)
        else st
      st
    else if inp.flat || inp.rasterflat then
      (List.range 4).foldl
        (fun st i =>
          if compmask &&& (1 <<< i) ≠ 0 then
            (st.1 + 2, st.2.1 ||| (INTERP_FLAT <<< st.1), st.2.2)
          else st)
        (0, 0, 0)
    else (0, 0, 0)

/-- The indices `ir3_next_varying` iterates (inputs with a non-zero
component mask that are varyings). -/
def fs_varying_indices (fs : Variant) : List Nat :=
  (List.range fs.inputs.length).filter fun i =>
    match fs.inputs.get? i with
    | some inp => inp.compmask ≠ 0 && inp.bary
    | none => false

/-- Pointwise array update. -/
def upd32 (f : Nat → Nat) (i v : Nat) : Nat → Nat :=
  fun j => if j = i then v else f j

/-- `tu6_emit_vpc_varying_modes` (tu_pipeline.c:1080): pack each input's
2-bit modes at its doubled input location; a field straddling a 32-bit
word boundary is split, low bits in the current word and the high bits
right-justified into the next. -/
def tu6_emit_vpc_varying_modes (fs : Option Variant) : List Dword :=
  let zero : (Nat → Nat) × (Nat → Nat) := ((fun _ => 0), (fun _ => 0))
  let arrays := match fs with
    | none => zero
    | some f =>
      (fs_varying_indices f).foldl
        (fun (st : (Nat → Nat) × (Nat → Nat)) i =>
          let m := tu6_vpc_varying_mode f i
          let bits := m.1
          let interp := m.2.1
          let repl := m.2.2
          let inloc := (match f.inputs.get? i with
            | some inp => inp.inloc
            | none => 0) * 2
          let n := inloc / 32
          let shift := inloc % 32
          let im := upd32 st.1 n ((st.1 n ||| (interp <<< shift)) % 2 ^ 32)
          let rm := upd32 st.2 n ((st.2 n ||| (repl <<< shift)) % 2 ^ 32)
          if 32 < shift + bits then
            let n' := n + 1
            let shift' := 32 - shift
            (upd32 im n' ((im n' ||| (interp >>> shift')) % 2 ^ 32),
             upd32 rm n' ((rm n' ||| (repl >>> shift')) % 2 ^ 32))
          else (im, rm))
        zero
  [.pkt4 .vpcVaryingInterpMode 0 8]
  ++ ((List.range 8).map fun i => .raw (arrays.1 i))
  ++ [.pkt4 .vpcVaryingPsReplMode 0 8]
  ++ ((List.range 8).map fun i => .raw (arrays.2 i))

/-! ## Fragment-shader input/output configuration -/

/-- `tu6_emit_fs_inputs` (tu_pipeline.c:1120). -/
def tu6_emit_fs_inputs (fs : Variant) : List Dword :=
  let sample_shading := fs.per_samp || fs.key_sample_shading
  let enable_varyings := 0 < fs.total_in
  let samp_id_regid := ir3_find_sysval_regid fs SYSTEM_VALUE_SAMPLE_ID
  let smask_in_regid := ir3_find_sysval_regid fs SYSTEM_VALUE_SAMPLE_MASK_IN
  let face_regid := ir3_find_sysval_regid fs SYSTEM_VALUE_FRONT_FACE
  let coord_regid := ir3_find_sysval_regid fs SYSTEM_VALUE_FRAG_COORD
  let zwcoord_regid := if VALIDREG coord_regid then coord_regid + 2
    else regid 63 0
  let ij := fun i =>
    ir3_find_sysval_regid fs (SYSTEM_VALUE_BARYCENTRIC_PERSP_PIXEL + i)
  let nsp := fs.sampler_prefetch.length
  [.pkt4 .spFsPrefetchCntl 0 (1 + nsp),
   .reg .spFsPrefetchCntl [(nsp : Int), (regid 63 0 : Int), 0x7000]]
  ++ (fs.sampler_prefetch.map fun p =>
      .reg .spFsPrefetchCmd
        [(p.src : Int), (p.samp_id : Int), (p.tex_id : Int), (p.dst : Int),
         (p.wrmask : Int), bit p.half_precision, (p.cmd : Int)])
  ++ (if 0 < nsp then
       [.pkt4 .spFsBindlessPrefetchCmd 0 nsp]
       ++ fs.sampler_prefetch.map fun p =>
          .reg .spFsBindlessPrefetchCmd
            [(p.samp_bindless_id : Int), (p.tex_bindless_id : Int)]
      else [])
  ++ [.pkt4 .hlsqControl1 0 5,
      .raw 0x7,
      .reg .hlsqControl2
        [(face_regid : Int), (samp_id_regid : Int), (smask_in_regid : Int),
         (ij IJ_PERSP_SIZE : Int)],
      .reg .hlsqControl3
        [(ij IJ_PERSP_PIXEL : Int), (ij IJ_LINEAR_PIXEL : Int),
         (ij IJ_PERSP_CENTROID : Int), (ij IJ_LINEAR_CENTROID : Int)],
      .reg .hlsqControl4
        [(coord_regid : Int), (zwcoord_regid : Int),
         (ij IJ_PERSP_SAMPLE : Int), (ij IJ_LINEAR_SAMPLE : Int)],
      .raw 0xfc,
      .pkt4 .hlsqUnknownB980 0 1,
      .raw (if enable_varyings then 3 else 1)]
  ++ (let need_size := fs.frag_face || decide (fs.fragcoord_compmask ≠ 0) ||
        (VALIDREG (ij IJ_PERSP_SIZE) && !sample_shading) ||
        VALIDREG (ij IJ_LINEAR_PIXEL)
      let need_size_persamp := VALIDREG (ij IJ_PERSP_SIZE) && sample_shading
      [.pkt4 .grasCntl 0 1,
       .reg .grasCntl
         [bit (VALIDREG (ij IJ_PERSP_PIXEL)),
          bit (VALIDREG (ij IJ_PERSP_CENTROID)),
          bit (VALIDREG (ij IJ_PERSP_SAMPLE)),
          bit need_size, bit need_size_persamp,
          (fs.fragcoord_compmask : Int)],
       .pkt4 .rbRenderControl0 0 2,
       .reg .rbRenderControl0
         [bit (VALIDREG (ij IJ_PERSP_PIXEL)),
          bit (VALIDREG (ij IJ_PERSP_CENTROID)),
          bit (VALIDREG (ij IJ_PERSP_SAMPLE)),
          bit need_size, bit enable_varyings, bit need_size_persamp,
          (fs.fragcoord_compmask : Int)],
       .reg .rbRenderControl1
         [bit sample_shading, bit sample_shading,
          bit (VALIDREG smask_in_regid), bit (VALIDREG samp_id_regid),
          bit (VALIDREG (ij IJ_PERSP_SIZE)), bit fs.frag_face],
       .pkt4 .rbSampleCntl 0 1,
       .reg .rbSampleCntl [bit sample_shading],
       .pkt4 .grasUnknown8101 0 1,
       .raw (if sample_shading then 0x6 else 0),
       .pkt4 .grasSampleCntl 0 1,
       .reg .grasSampleCntl [bit sample_shading]])

def A6XX_EARLY_Z : Nat := 0

def A6XX_LATE_Z : Nat := 1

/-- `tu6_emit_fs_outputs` (tu_pipeline.c:1245): both `SP_FS_OUTPUT_CNTL0`
and `RB_FS_OUTPUT_CNTL0` carry the dual-source-enable flag as their last
field. -/
def tu6_emit_fs_outputs (fs : Variant) (mrt_count : Nat)
    (dual_src_blend : Bool) (render_components : Nat) (is_s8_uint : Bool) :
    List Dword :=
  let posz_regid := ir3_find_output_regid fs FRAG_RESULT_DEPTH
  let smask_regid := ir3_find_output_regid fs FRAG_RESULT_SAMPLE_MASK
  let stencilref_regid := ir3_find_output_regid fs FRAG_RESULT_STENCIL
  let fragdata_regid := fun i =>
    if fs.color0_mrt then ir3_find_output_regid fs FRAG_RESULT_COLOR
    else ir3_find_output_regid fs (FRAG_RESULT_DATA0 + i)
  [.pkt4 .spFsOutputCntl0 0 2,
   .reg .spFsOutputCntl0
     [(posz_regid : Int), (smask_regid : Int), (stencilref_regid : Int),
      bit dual_src_blend],
   .reg .spFsOutputCntl1 [(mrt_count : Int)],
   .pkt4 .spFsOutputReg 0 8]
  ++ ((List.range 8).map fun i =>
      .reg .spFsOutputReg [(fragdata_regid i : Int), 0])
  ++ [.pkt4 .spFsRenderComponents 0 1,
      .reg .spFsRenderComponents [(render_components : Int)],
      .pkt4 .rbFsOutputCntl0 0 2,
      .reg .rbFsOutputCntl0
        [bit fs.writes_pos, bit fs.writes_smask, bit fs.writes_stencilref,
         bit dual_src_blend],
      .reg .rbFsOutputCntl1 [(mrt_count : Int)],
      .pkt4 .rbRenderComponents 0 1,
      .reg .rbRenderComponents [(render_components : Int)]]
  ++ (let zmode := if fs.no_earlyz || fs.has_kill || fs.writes_pos ||
          fs.writes_stencilref || is_s8_uint then A6XX_LATE_Z
        else A6XX_EARLY_Z
      [.pkt4 .grasSuDepthPlaneCntl 0 1,
       .reg .grasSuDepthPlaneCntl [(zmode : Int)],
       .pkt4 .rbDepthPlaneCntl 0 1,
       .reg .rbDepthPlaneCntl [(zmode : Int)]])

/-- `tu6_emit_geom_tess_consts` (tu_pipeline.c:1311). -/
def tu6_emit_geom_tess_consts (vs : Variant) (hs ds gs : Option Variant)
    (cps_per_patch : Nat) : List Dword :=
  let num_vertices := match hs, gs with
    | some _, _ => cps_per_patch
    | none, some g => g.nirInfo.gs_vertices_in
    | none, none => 0
  let vs_params := [vs.output_size * num_vertices * 4, vs.output_size * 4,
    0, 0]
  tu6_emit_const CP_LOAD_STATE6_GEOM vs.offset_primitive_param SB6_VS_SHADER
    0 4 vs_params
  ++ (match hs with
      | none => []
      | some h =>
        let d := ds.getD vs
        let hs_params := [vs.output_size * num_vertices * 4,
          vs.output_size * 4, h.output_size, cps_per_patch]
        let hs_const := tu6_emit_const CP_LOAD_STATE6_GEOM
          h.offset_primitive_param SB6_HS_SHADER 0 4 hs_params
        let num_vertices := match gs with
          | some g => g.nirInfo.gs_vertices_in
          | none => num_vertices
        let ds_params := [d.output_size * num_vertices * 4,
          d.output_size * 4, h.output_size, h.nirInfo.tcs_vertices_out]
        hs_const ++ tu6_emit_const CP_LOAD_STATE6_GEOM
          d.offset_primitive_param SB6_DS_SHADER 0 4 ds_params)
  ++ (match gs with
      | none => []
      | some g =>
        let prev := ds.getD vs
        let gs_params := [prev.output_size * g.nirInfo.gs_vertices_in * 4,
          prev.output_size * 4, 0, 0]
        tu6_emit_const CP_LOAD_STATE6_GEOM g.offset_primitive_param
          SB6_GS_SHADER 0 4 gs_params)

/-! ## Vertex input -/

/-- `VkVertexInputBindingDescription`. -/
structure VertexBinding where
  binding : Nat
  stride : Nat
  instanced : Bool
  deriving Repr, DecidableEq

/-- `VkVertexInputAttributeDescription`. -/
structure VertexAttribute where
  location : Nat
  binding : Nat
  offset : Nat
  format : VkFormat
  deriving Repr, DecidableEq

/-- `VkPipelineVertexInputStateCreateInfo` (plus the chained divisor
extension entries `(binding, divisor)` when present). -/
structure VertexInputState where
  bindings : List VertexBinding
  attributes : List VertexAttribute
  divisors : Option (List (Nat × Nat))
  deriving Repr, DecidableEq

/-- The `step_rate[]` value read for a declared binding: 1, overridden by
the last divisor-extension entry for that binding. -/
def vertex_step_rate (info : VertexInputState) (b : Nat) : Nat :=
  match info.divisors with
  | none => 1
  | some ds =>
    match ds.reverse.find? fun p => p.1 = b with
    | some p => p.2
    | none => 1

/-- The attribute-decode loop of `tu6_emit_vertex_input`
(tu_pipeline.c:1463-1512): attributes not consumed by the shader (no input
slot matching the declared location) are silently dropped from the decode
program. -/
def tu6_vi_decode (vs : Variant) (info : VertexInputState)
    (binding_instanced : Nat) (attrs : List VertexAttribute)
    (st0 : List Dword × Nat) : List Dword × Nat :=
  attrs.foldl
    (fun (st : List Dword × Nat) attr =>
      match vs.inputs.find? fun inp =>
          (inp.slot + 2 ^ 32 - VERT_ATTRIB_GENERIC0) % 2 ^ 32 =
            attr.location with
      | none => st
      | some inp =>
        (st.1 ++
         [.pkt4 .vfdDecodeInstr st.2 2,
          .reg .vfdDecodeInstr
            [(attr.binding : Int), (attr.offset : Int),
             bit (binding_instanced &&& (1 <<< attr.binding) ≠ 0),
             (attr.format.id : Int), 1, bit !attr.format.isInt],
          .reg .vfdDecodeStepRate
            [(vertex_step_rate info attr.binding : Int)],
          .pkt4 .vfdDestCntlInstr st.2 1,
          .reg .vfdDestCntlInstr [(inp.compmask : Int), (inp.regid : Int)]],
         st.2 + 1))
    st0

/-- `tu6_emit_vertex_input` (tu_pipeline.c:1444): returns the emitted
dwords and the updated `bindings_used` mask. -/
def tu6_emit_vertex_input (vs : Variant) (info : VertexInputState)
    (bindings_used0 : Nat) : List Dword × Nat :=
  let strides := info.bindings.flatMap fun bnd =>
    [.pkt4 .vfdFetchStride bnd.binding 1,
     .reg .vfdFetchStride [(bnd.stride : Int)]]
  let binding_instanced := info.bindings.foldl
    (fun m bnd => if bnd.instanced then m ||| (1 <<< bnd.binding) else m) 0
  let bindings_used := info.bindings.foldl
    (fun m bnd => m ||| (1 <<< bnd.binding)) bindings_used0
  let decode := tu6_vi_decode vs info binding_instanced info.attributes
    ([], 0)
  (strides ++ decode.1 ++
    [.pkt4 .vfdControl0 0 1,
     .reg .vfdControl0 [(decode.2 : Int), (decode.2 : Int)]],
   bindings_used)

/-! ## Builder and parse steps -/

/-- The all-zero `dummy_variant` used for the fragment-stage emission of a
binning program (tu_pipeline.c:1431). -/
def dummy_variant : Variant :=
  { typ := 0
    outputs := []
    inputs := []
    sysvals := []
    stream_output := []
    bin := []
    instrlen := 0
    constlen := 0
    offset_immediate := 0
    offset_primitive_param := 0
    offset_primitive_map := 0
    immediates := []
    max_reg := 0
    max_half_reg := 0
    branchstack := 0
    mergedregs := false
    need_pixlod := false
    need_fine_derivatives := false
    bindless_tex := false
    bindless_samp := false
    bindless_ibo := false
    bindless_ubo := false
    num_samp := 0
    total_in := 0
    writes_pos := false
    writes_smask := false
    writes_stencilref := false
    no_earlyz := false
    has_kill := false
    per_samp := false
    frag_face := false
    fragcoord_compmask := 0
    color0_mrt := false
    sampler_prefetch := []
    key_sample_shading := false
    output_size := 0
    nir := none }

/-- `VkPipelineTessellationStateCreateInfo`. -/
structure TessellationState where
  patchControlPoints : Nat
  deriving Repr, DecidableEq

/-- `VkDynamicState`: the categories this driver generation recognizes
(`VK_DYNAMIC_STATE_VIEWPORT … VK_DYNAMIC_STATE_STENCIL_REFERENCE` and the
sample-locations extension), plus any other category. -/
inductive VkDynamicState where
  | viewport
  | scissor
  | lineWidth
  | depthBias
  | blendConstants
  | depthBounds
  | stencilCompareMask
  | stencilWriteMask
  | stencilReference
  | sampleLocationsExt
  | unrecognized (n : Nat)
  deriving Repr, DecidableEq

def VK_DYNAMIC_STATE_VIEWPORT : Nat := 0

def VK_DYNAMIC_STATE_SCISSOR : Nat := 1

def VK_DYNAMIC_STATE_LINE_WIDTH : Nat := 2

def VK_DYNAMIC_STATE_DEPTH_BIAS : Nat := 3

def VK_DYNAMIC_STATE_BLEND_CONSTANTS : Nat := 4

def VK_DYNAMIC_STATE_DEPTH_BOUNDS : Nat := 5

def VK_DYNAMIC_STATE_STENCIL_COMPARE_MASK : Nat := 6

def VK_DYNAMIC_STATE_STENCIL_WRITE_MASK : Nat := 7

def VK_DYNAMIC_STATE_STENCIL_REFERENCE : Nat := 8

/-- `TU_DYNAMIC_STATE_SAMPLE_LOCATIONS` (tu_private.h): the first
driver-internal dynamic-state id after the core Vulkan ones. -/
def TU_DYNAMIC_STATE_SAMPLE_LOCATIONS : Nat := 9

/-- The dynamic-state bit for a recognized category (`none` for a category
not recognized by this driver generation). -/
def dynamic_state_bit : VkDynamicState → Option Nat
  | .viewport => some VK_DYNAMIC_STATE_VIEWPORT
  | .scissor => some VK_DYNAMIC_STATE_SCISSOR
  | .lineWidth => some VK_DYNAMIC_STATE_LINE_WIDTH
  | .depthBias => some VK_DYNAMIC_STATE_DEPTH_BIAS
  | .blendConstants => some VK_DYNAMIC_STATE_BLEND_CONSTANTS
  | .depthBounds => some VK_DYNAMIC_STATE_DEPTH_BOUNDS
  | .stencilCompareMask => some VK_DYNAMIC_STATE_STENCIL_COMPARE_MASK
  | .stencilWriteMask => some VK_DYNAMIC_STATE_STENCIL_WRITE_MASK
  | .stencilReference => some VK_DYNAMIC_STATE_STENCIL_REFERENCE
  | .sampleLocationsExt => some TU_DYNAMIC_STATE_SAMPLE_LOCATIONS
  | .unrecognized _ => none

/-- `tu_pipeline_builder_parse_dynamic` (tu_pipeline.c:2061): each
recognized category sets its bit in the pipeline's dynamic-state mask; an
unrecognized category hits `assert(!"unsupported dynamic state")`, the
build's fatal-error mechanism, embedded as `Except.error`. -/
def tu_pipeline_builder_parse_dynamic
    (dyn : Option (List VkDynamicState)) : Except Unit Nat :=
  match dyn with
  | none => .ok 0
  | some states =>
    states.foldlM
      (fun mask st =>
        match dynamic_state_bit st with
        | some i => Except.ok (mask ||| (1 <<< i))
        | none => Except.error ())
      0

/-- `tu_pipeline_static_state` (tu_pipeline.c:2166): true when the category
is static, i.e. a baked value is emitted; false (nothing baked) when the
category's dynamic bit is set. -/
def tu_pipeline_static_state (dynamic_state_mask id : Nat) : Bool :=
  !(dynamic_state_mask.testBit id)

/-- `VkGraphicsPipelineCreateInfo`, restricted to what the builder reads;
`stages` lists the mesa stages of `pStages`. -/
structure GraphicsPipelineCreateInfo where
  stages : List Nat
  pVertexInputState : VertexInputState
  topology : Nat
  primitiveRestartEnable : Bool
  pTessellationState : Option TessellationState
  pViewports : List VkViewport
  pScissors : List VkRect2D
  pRasterizationState : RasterizationStateCreateInfo
  pMultisampleState : MultisampleStateCreateInfo
  pDepthStencilState : DepthStencilStateCreateInfo
  pColorBlendState : Option BlendStateCreateInfo
  pDynamicStates : Option (List VkDynamicState)
  deriving Repr, DecidableEq

/-- The render-pass subpass data `tu_pipeline_builder_init_graphics`
reads: per-color-attachment format (`none` for `VK_ATTACHMENT_UNUSED`) and
the depth/stencil attachment format. -/
structure SubpassInfo where
  color_formats : List (Option VkFormat)
  depth_format : Option VkFormat
  deriving Repr, DecidableEq

/-- `tu_pipeline_builder` (tu_pipeline.c:244), after
`tu_pipeline_builder_init_graphics` and shader compilation: the immutable
inputs of one build.  `active_desc_sets` is the OR of the shaders'
statically-used descriptor sets (external shader metadata). -/
structure Builder where
  layout : PipelineLayout
  create_info : GraphicsPipelineCreateInfo
  variants : List (Option Variant)
  binning_variant : Variant
  active_desc_sets : Nat
  gpu_id : Nat
  rasterizer_discard : Bool
  samples : Nat
  use_color_attachments : Bool
  use_dual_src_blend : Bool
  color_attachment_count : Nat
  color_attachment_formats : List VkFormat
  depth_attachment_format : VkFormat
  render_components : Nat
  deriving Repr, DecidableEq

def Builder.variantAt (b : Builder) (stage : Nat) : Option Variant :=
  match b.variants.get? stage with
  | some v => v
  | none => none

/-- `tu_pipeline_builder_init_graphics` (tu_pipeline.c:2473): derive the
rasterizer-discard-dependent builder state from the create info and the
subpass. -/
def tu_pipeline_builder_init_graphics (ci : GraphicsPipelineCreateInfo)
    (sub : SubpassInfo) (variants : List (Option Variant))
    (binning : Variant) (layout : PipelineLayout) (active_desc_sets : Nat)
    (gpu_id : Nat) : Builder :=
  let discard := ci.pRasterizationState.rasterizerDiscardEnable
  if discard then
    { layout := layout, create_info := ci, variants := variants
      binning_variant := binning, active_desc_sets := active_desc_sets
      gpu_id := gpu_id, rasterizer_discard := true, samples := 1
      use_color_attachments := false, use_dual_src_blend := false
      color_attachment_count := 0, color_attachment_formats := []
      depth_attachment_format := VK_FORMAT_UNDEFINED
      render_components := 0 }
  else
    let depth_attachment_format := sub.depth_format.getD VK_FORMAT_UNDEFINED
    let color_attachment_count := sub.color_formats.length
    let formats := sub.color_formats.map fun f => f.getD VK_FORMAT_UNDEFINED
    let use_color := sub.color_formats.any Option.isSome
    let rc := sub.color_formats.enum.foldl
      (fun rc (p : Nat × Option VkFormat) =>
        if p.2.isSome then rc ||| (0xf <<< (p.1 * 4)) else rc)
      0
    let dual := tu_blend_state_is_dual_src ci.pColorBlendState
    { layout := layout, create_info := ci, variants := variants
      binning_variant := binning, active_desc_sets := active_desc_sets
      gpu_id := gpu_id, rasterizer_discard := false
      samples := ci.pMultisampleState.rasterizationSamples
      use_color_attachments := use_color
      use_dual_src_blend := dual
      color_attachment_count :=
        if dual then color_attachment_count + 1 else color_attachment_count
      color_attachment_formats := formats
      depth_attachment_format := depth_attachment_format
      render_components :=
        if dual && ((sub.color_formats.get? 0).getD none).isSome then
          rc ||| 0xf0
        else rc }

/-- The vertex-stage variant used by `tu6_emit_program`
(tu_pipeline.c:1398-1405): the binning pass uses the reduced binning
variant, except that binning-pass variants are not supported with a
geometry stage. -/
def tu6_emit_program_vs_variant (b : Builder) (binning_pass : Bool) :
    Variant :=
  if binning_pass && (b.variantAt MESA_SHADER_GEOMETRY).isNone then
    b.binning_variant
  else (b.variantAt MESA_SHADER_VERTEX).getD dummy_variant

/-- `tu6_emit_program` (tu_pipeline.c:1373).  `iova` gives each stage's
uploaded binary address; for the binning pass without a geometry stage the
vertex stage uses the reduced binning variant, and the fragment stage is
emitted disabled. -/
def tu6_emit_program (b : Builder) (iova : Nat → Nat)
    (binning_vs_iova : Nat) (binning_pass : Bool) (garb_out garb_dst : Nat) :
    List Dword :=
  let bs := b.binning_variant
  let hs := b.variantAt MESA_SHADER_TESS_CTRL
  let ds := b.variantAt MESA_SHADER_TESS_EVAL
  let gs := b.variantAt MESA_SHADER_GEOMETRY
  let fs := b.variantAt MESA_SHADER_FRAGMENT
  let cps_per_patch := match b.create_info.pTessellationState with
    | some t => t.patchControlPoints
    | none => 0
  let vs_used := tu6_emit_program_vs_variant b binning_pass
  let fs_used := if binning_pass then none else fs
  [.pkt4 .hlsqInvalidateCmd 0 1,
   .reg .hlsqInvalidateCmd [1, 1, 1, 1, 1, 1]]
  ++ (if binning_pass && gs.isNone then
       tu6_emit_xs_config MESA_SHADER_VERTEX (some bs) binning_vs_iova
      else [])
  ++ ((let start := if binning_pass && gs.isNone then 1 else 0
       (List.range (MESA_SHADER_STAGES - start)).flatMap fun k =>
         let stage := start + k
         let xs := if stage = MESA_SHADER_FRAGMENT && binning_pass then none
           else b.variantAt stage
         tu6_emit_xs_config stage xs (iova stage)))
  ++ [.pkt4 .spHsUnknownA831 0 1, .raw 0]
  ++ tu6_emit_vpc vs_used hs ds gs fs_used cps_per_patch (b.gpu_id = 650)
       garb_out garb_dst
  ++ tu6_emit_vpc_varying_modes fs_used
  ++ (let f := fs_used.getD dummy_variant
      tu6_emit_fs_inputs f
      ++ tu6_emit_fs_outputs f b.color_attachment_count
           b.use_dual_src_blend b.render_components
           (b.depth_attachment_format = VK_FORMAT_S8_UINT))
  ++ (if gs.isSome || hs.isSome then
       tu6_emit_geom_tess_consts vs_used hs ds gs cps_per_patch
      else [])

/-! ## Fixed-function parse steps and the build -/

/-- `tu_pipeline_builder_parse_viewport` (tu_pipeline.c:2203). -/
def tu_pipeline_builder_parse_viewport (b : Builder) (mask : Nat) :
    List Dword :=
  if b.rasterizer_discard then []
  else
    (if tu_pipeline_static_state mask VK_DYNAMIC_STATE_VIEWPORT then
      tu6_emit_viewport ((b.create_info.pViewports.get? 0).getD
        ⟨0, 0, 0, 0, 0, 0⟩)
     else [])
    ++ (if tu_pipeline_static_state mask VK_DYNAMIC_STATE_SCISSOR then
         tu6_emit_scissor ((b.create_info.pScissors.get? 0).getD ⟨0, 0, 0, 0⟩)
        else [])

/-- `tu_pipeline_builder_parse_rasterization` (tu_pipeline.c:2230). -/
def tu_pipeline_builder_parse_rasterization (b : Builder) (mask : Nat) :
    List Dword :=
  let rast_info := b.create_info.pRasterizationState
  let mode := tu6_polygon_mode rast_info.polygonMode
  let depth_clip_disable := match rast_info.depthClipEnableExt with
    | some e => !e
    | none => rast_info.depthClampEnable
  let g := tu6_gras_su_cntl rast_info b.samples
  [.pkt4 .grasClCntl 0 1,
   .reg .grasClCntl
     [bit depth_clip_disable, bit depth_clip_disable,
      bit rast_info.depthClampEnable, 1, 1],
   .pkt4 .vpcPolygonMode 0 1, .reg .vpcPolygonMode [(mode : Int)],
   .pkt4 .pcPolygonMode 0 1, .reg .pcPolygonMode [(mode : Int)],
   .pkt4 .grasSuPointMinmax 0 2,
   .freg .grasSuPointMinmax [1 / 16, 4092],
   .freg .grasSuPointSize [1]]
  ++ (if tu_pipeline_static_state mask VK_DYNAMIC_STATE_LINE_WIDTH then
       ({ g with linehalfwidth := rast_info.lineWidth / 2 } :
         GrasSuCntl).dword
      else [])
  ++ (if tu_pipeline_static_state mask VK_DYNAMIC_STATE_DEPTH_BIAS then
       tu6_emit_depth_bias rast_info.depthBiasConstantFactor
         rast_info.depthBiasClamp rast_info.depthBiasSlopeFactor
      else [])

/-- `tu_pipeline_builder_parse_depth_stencil` (tu_pipeline.c:2286): with no
depth/stencil attachment both tests use the zeroed dummy state; an
`S8_UINT` attachment additionally forces the depth sub-state off. -/
def tu_pipeline_builder_parse_depth_stencil (b : Builder) (mask : Nat) :
    List Dword :=
  let ds_info := if b.depth_attachment_format ≠ VK_FORMAT_UNDEFINED then
      b.create_info.pDepthStencilState
    else dummy_ds_info
  let ds_info_depth := if b.depth_attachment_format ≠ VK_FORMAT_S8_UINT then
      ds_info
    else dummy_ds_info
  [.pkt4 .rbAlphaControl 0 1, .reg .rbAlphaControl []]
  ++ tu6_emit_depth_control ds_info_depth b.create_info.pRasterizationState
  ++ tu6_emit_stencil_control ds_info
  ++ (if tu_pipeline_static_state mask VK_DYNAMIC_STATE_DEPTH_BOUNDS then
       [.pkt4 .rbZBoundsMin 0 2,
        .freg .rbZBoundsMin [ds_info.minDepthBounds],
        .freg .rbZBoundsMax [ds_info.maxDepthBounds]]
      else [])
  ++ (if tu_pipeline_static_state mask
        VK_DYNAMIC_STATE_STENCIL_COMPARE_MASK then
       [.pkt4 .rbStencilMask 0 1,
        .reg .rbStencilMask
          [(ds_info.front.compareMask &&& 0xff : Nat),
           (ds_info.back.compareMask &&& 0xff : Nat)]]
      else [])
  ++ (if tu_pipeline_static_state mask
        VK_DYNAMIC_STATE_STENCIL_WRITE_MASK then
       [.pkt4 .rbStencilWrMask 0 1,
        .reg .rbStencilWrMask
          [(ds_info.front.writeMask &&& 0xff : Nat),
           (ds_info.back.writeMask &&& 0xff : Nat)]]
      else [])
  ++ (if tu_pipeline_static_state mask
        VK_DYNAMIC_STATE_STENCIL_REFERENCE then
       [.pkt4 .rbStencilRef 0 1,
        .reg .rbStencilRef
          [(ds_info.front.reference &&& 0xff : Nat),
           (ds_info.back.reference &&& 0xff : Nat)]]
      else [])

/-- `tu_pipeline_builder_parse_multisample_and_color_blend`
(tu_pipeline.c:2342). -/
def tu_pipeline_builder_parse_multisample_and_color_blend (b : Builder)
    (mask : Nat) : List Dword :=
  if b.rasterizer_discard then []
  else
    let msaa_info := b.create_info.pMultisampleState
    let blend_info := if b.use_color_attachments then
        b.create_info.pColorBlendState.getD dummy_blend_info
      else dummy_blend_info
    tu6_emit_rb_mrt_controls blend_info b.color_attachment_formats
    ++ tu6_emit_blend_control
         (tu6_blend_enable_mask blend_info b.color_attachment_formats)
         b.use_dual_src_blend msaa_info
    ++ (if tu_pipeline_static_state mask VK_DYNAMIC_STATE_BLEND_CONSTANTS
        then
         [.pkt4 .rbBlendRed 0 4]
         ++ (List.range 4).map fun i =>
            .freg .rbBlendRed [blend_info.blendConstants.getD i 0]
        else [])
    ++ (let samp_loc := if msaa_info.sampleLocationsEnable then
          some (⟨msaa_info.sampleLocations⟩ : SampleLocationsInfo)
        else none
        if tu_pipeline_static_state mask TU_DYNAMIC_STATE_SAMPLE_LOCATIONS
        then tu6_emit_sample_locations samp_loc
        else [])

/-- `tu_pipeline_allocate_cs` (tu_pipeline.c:1865), graphics case: the
precomputed dword capacity is a fixed 2048 margin plus the exactly-sized
load-state block plus the shader binaries. -/
def tu_pipeline_allocate_cs_size (b : Builder) : Nat :=
  2048 + tu6_load_state_size b.layout b.active_desc_sets false
  + ((List.range MESA_SHADER_STAGES).map fun i =>
      match b.variantAt i with
      | some v => v.sizedwords
      | none => 0).sum
  + b.binning_variant.sizedwords

/-- Byte offset (hence relative device address) of stage `i`'s uploaded
binary: the shaders are allocated first, in stage order. -/
def upload_offset (b : Builder) (stage : Nat) : Nat :=
  4 * ((List.range stage).map fun i =>
    match b.variantAt i with
    | some v => v.sizedwords
    | none => 0).sum

def binning_upload_offset (b : Builder) : Nat :=
  upload_offset b MESA_SHADER_STAGES

/-- The result of one build: the dwords written into the pipeline's
command stream, in order, and the precomputed capacity.  The final cursor
position is `stream.length` (a draw state occupies exactly the dwords
written into it; a sub-stream commits the dwords actually used). -/
structure BuildOutput where
  stream : List Dword
  capacity : Nat
  deriving Repr, DecidableEq

/-- Per-stage upload address passed to the program emitters: shaders are
uploaded in stage order, absent stages get address 0. -/
def build_iova (b : Builder) : Nat → Nat := fun stage =>
  match b.variantAt stage with
  | some _ => upload_offset b stage
  | none => 0

/-- The uploaded shader binaries, in stage order, binning variant last
(`tu_pipeline_builder_upload_shaders`). -/
def build_uploads (b : Builder) : List Dword :=
  ((List.range MESA_SHADER_STAGES).flatMap fun i =>
    match b.variantAt i with
    | some v => v.bin.map Dword.raw
    | none => [])
  ++ b.binning_variant.bin.map Dword.raw

/-- One of the two program sub-streams of the build (draw pass and binning
pass). -/
def build_prog (b : Builder) (binning : Bool) (garb_out garb_dst : Nat) :
    List Dword :=
  tu6_emit_program b (build_iova b) (binning_upload_offset b) binning
    garb_out garb_dst

/-- The draw-pass vertex-input sub-stream and the bindings it uses. -/
def build_vi (b : Builder) : List Dword × Nat :=
  tu6_emit_vertex_input ((b.variantAt MESA_SHADER_VERTEX).getD dummy_variant)
    b.create_info.pVertexInputState 0

/-- The binning-pass vertex-input sub-stream, accumulating the draw pass's
used bindings. -/
def build_vi_binning (b : Builder) : List Dword × Nat :=
  tu6_emit_vertex_input b.binning_variant b.create_info.pVertexInputState
    (build_vi b).2

/-- `tu_pipeline_builder_build` (tu_pipeline.c:2412): shader upload, the
two program sub-streams, the fixed-function draw states, and the
load-state block, against the precomputed capacity.  The unrecognized
dynamic-state assert aborts the build (`Except.error`); `garb_out` and
`garb_dst` are the uninitialised-stack words described at
`tu6_emit_vpc`; the dwords one successful build writes, in order, are
uploads, the two program sub-streams, the two vertex-input sub-streams,
the fixed-function draw states, and the load-state block
(`build_stream`). -/
def build_stream (b : Builder) (mask garb_out garb_dst : Nat) : List Dword :=
  build_uploads b ++ build_prog b false garb_out garb_dst
  ++ build_prog b true garb_out garb_dst
  ++ (build_vi b).1 ++ (build_vi_binning b).1
  ++ tu_pipeline_builder_parse_viewport b mask
  ++ tu_pipeline_builder_parse_rasterization b mask
  ++ tu_pipeline_builder_parse_depth_stencil b mask
  ++ tu_pipeline_builder_parse_multisample_and_color_blend b mask
  ++ tu6_emit_load_state b.layout b.active_desc_sets false

def tu_pipeline_builder_build (b : Builder) (garb_out garb_dst : Nat) :
    Except Unit BuildOutput :=
  match tu_pipeline_builder_parse_dynamic b.create_info.pDynamicStates with
  | .error e => .error e
  | .ok mask =>
    .ok ⟨build_stream b mask garb_out garb_dst,
         tu_pipeline_allocate_cs_size b⟩

/-! ## C6: binning-pass variant selection -/

/-- `tu_pipeline_shader_key_init` (tu_pipeline.c:1894), geometry bit: set
iff some pipeline stage is the geometry stage. -/
def tu_pipeline_shader_key_has_gs (ci : GraphicsPipelineCreateInfo) : Bool :=
  decide (MESA_SHADER_GEOMETRY ∈ ci.stages)

/-- Modelled from the spec (§4.1): `ir3_has_binning_vs` is part of the
external ir3 compiler; binning variants with a geometry stage are
unsupported. -/
def ir3_has_binning_vs (key_has_gs : Bool) : Bool := !key_has_gs

/-- `tu_pipeline_builder_compile_shaders` (tu_pipeline.c:2044-2054): true
iff the builder's binning variant is the reduced binning-pass compile
rather than the full vertex variant. -/
def tu_binning_variant_is_reduced (vs : Variant)
    (ci : GraphicsPipelineCreateInfo) : Bool :=
  !(decide (vs.stream_output.length ≠ 0) ||
    !ir3_has_binning_vs (tu_pipeline_shader_key_has_gs ci))

/-- C6: the reduced binning-pass vertex variant is selected iff no geometry
stage is present and the vertex shader performs no stream-output; and in
the binning program emission the vertex stage uses the binning variant iff
no geometry stage is present (with a geometry stage the full vertex
variant is used instead). -/
theorem C6_binning_variant_choice (vs : Variant)
    (ci : GraphicsPipelineCreateInfo) (b : Builder) :
    (tu_binning_variant_is_reduced vs ci = true ↔
      (¬ MESA_SHADER_GEOMETRY ∈ ci.stages ∧ vs.stream_output.length = 0)) ∧
    ((b.variantAt MESA_SHADER_GEOMETRY).isNone →
      tu6_emit_program_vs_variant b true = b.binning_variant) ∧
    ((b.variantAt MESA_SHADER_GEOMETRY).isSome →
      tu6_emit_program_vs_variant b true =
        (b.variantAt MESA_SHADER_VERTEX).getD dummy_variant) := by
  refine ⟨?_, ?_, ?_⟩
  · unfold tu_binning_variant_is_reduced ir3_has_binning_vs
      tu_pipeline_shader_key_has_gs
    constructor
    · intro h
      simp only [Bool.not_eq_true', Bool.or_eq_false_iff,
        decide_eq_false_iff_not, Bool.not_not,
        decide_eq_true_eq] at h
      exact ⟨h.2, by omega⟩
    · intro ⟨h1, h2⟩
      simp only [Bool.not_eq_true', Bool.or_eq_false_iff,
        decide_eq_false_iff_not, Bool.not_not, decide_eq_true_eq]
      exact ⟨by omega, h1⟩
  · intro h
    unfold tu6_emit_program_vs_variant
    simp [h]
  · intro h
    unfold tu6_emit_program_vs_variant
    simp [Option.isNone_iff_eq_none, h]
    intro hnone
    rw [hnone] at h
    cases h

/-- Witness for C6: a builder with no geometry stage uses the binning
variant for the binning program. -/
theorem C6_witness :
    tu6_emit_program_vs_variant
      ⟨⟨[]⟩, ⟨[], ⟨[], [], none⟩, 0, false, none, [], [],
        ⟨false, false, .fill, 0, false, false, 0, 0, 0, 1, none⟩,
        ⟨1, false, none, false, false, false, []⟩, dummy_ds_info, none,
        none⟩,
      [some vpc_order_example, none, none, none, some dummy_variant, none],
      vpc_order_example, 0, 0, false, 1, false, false, 0, [],
      VK_FORMAT_UNDEFINED, 0⟩ true = vpc_order_example ∧
    tu_binning_variant_is_reduced vpc_order_example
      ⟨[MESA_SHADER_VERTEX, MESA_SHADER_FRAGMENT], ⟨[], [], none⟩, 0, false,
        none, [], [],
        ⟨false, false, .fill, 0, false, false, 0, 0, 0, 1, none⟩,
        ⟨1, false, none, false, false, false, []⟩, dummy_ds_info, none,
        none⟩ = true := by
  constructor
  · exact (C6_binning_variant_choice vpc_order_example
      ⟨[], ⟨[], [], none⟩, 0, false, none, [], [],
        ⟨false, false, .fill, 0, false, false, 0, 0, 0, 1, none⟩,
        ⟨1, false, none, false, false, false, []⟩, dummy_ds_info, none,
        none⟩ _).2.1 rfl
  · exact ((C6_binning_variant_choice vpc_order_example _
      ⟨⟨[]⟩, ⟨[], ⟨[], [], none⟩, 0, false, none, [], [],
        ⟨false, false, .fill, 0, false, false, 0, 0, 0, 1, none⟩,
        ⟨1, false, none, false, false, false, []⟩, dummy_ds_info, none,
        none⟩, [], vpc_order_example, 0, 0, false, 1, false, false, 0, [],
        VK_FORMAT_UNDEFINED, 0⟩).1).2 (by decide)

/-! ## C7: unrecognized dynamic state is fatal -/

/-- Binding an ok value in Except applies the continuation. -/
theorem except_bind_ok {α β : Type} (a : α) (f : α → Except Unit β) :
    (Except.ok a >>= f) = f a := rfl

/-- Binding an error in Except short-circuits. -/
theorem except_bind_error {α β : Type} (f : α → Except Unit β) :
    ((Except.error () : Except Unit α) >>= f) = Except.error () := rfl

/-- The dynamic-state fold errors exactly when some listed category is
unrecognized, from any starting mask. -/
theorem parse_dynamic_fold_error_iff (states : List VkDynamicState) :
    ∀ acc : Nat,
    (states.foldlM
      (fun mask st =>
        match dynamic_state_bit st with
        | some i => Except.ok (mask ||| (1 <<< i))
        | none => Except.error ()) acc = Except.error ()) ↔
    ∃ st ∈ states, dynamic_state_bit st = none := by
  induction states with
  | nil =>
    intro acc
    rw [List.foldlM_nil]
    constructor
    · intro h
      have h' : (Except.ok acc : Except Unit Nat) = Except.error () := h
      cases h'
    · rintro ⟨st, hst, _⟩
      exact absurd hst (List.not_mem_nil st)
  | cons hd tl ih =>
    intro acc
    cases hb : dynamic_state_bit hd with
    | none =>
      simp only [List.foldlM_cons, hb, except_bind_error]
      exact ⟨fun _ => ⟨hd, List.mem_cons_self hd tl, hb⟩, fun _ => trivial⟩
    | some j =>
      simp only [List.foldlM_cons, hb, except_bind_ok]
      rw [ih]
      constructor
      · rintro ⟨st, hst, hnone⟩
        exact ⟨st, List.mem_cons_of_mem hd hst, hnone⟩
      · rintro ⟨st, hst, hnone⟩
        rcases List.mem_cons.mp hst with rfl | hst'
        · rw [hb] at hnone; cases hnone
        · exact ⟨st, hst', hnone⟩

/-- A successful dynamic-state fold keeps every bit of the starting mask
and sets the bit of every recognized listed category. -/
theorem parse_dynamic_fold_ok_bits (states : List VkDynamicState) :
    ∀ acc mask : Nat,
    (states.foldlM
      (fun mask st =>
        match dynamic_state_bit st with
        | some i => Except.ok (mask ||| (1 <<< i))
        | none => Except.error ()) acc = Except.ok mask) →
    (∀ i, acc.testBit i = true → mask.testBit i = true) ∧
    (∀ st ∈ states, ∀ i, dynamic_state_bit st = some i →
      mask.testBit i = true) := by
  induction states with
  | nil =>
    intro acc mask h
    simp only [List.foldlM_nil] at h
    have : acc = mask := by
      have h' : Except.ok acc = (Except.ok mask : Except Unit Nat) := h
      injection h'
    subst this
    exact ⟨fun _ hi => hi, fun st hst => absurd hst (List.not_mem_nil st)⟩
  | cons hd tl ih =>
    intro acc mask h
    cases hb : dynamic_state_bit hd with
    | none =>
      rw [List.foldlM_cons] at h
      simp only [hb, except_bind_error] at h
      cases h
    | some j =>
      rw [List.foldlM_cons] at h
      simp only [hb, except_bind_ok] at h
      obtain ⟨hmono, hmem⟩ := ih (acc ||| (1 <<< j)) mask h
      refine ⟨?_, ?_⟩
      · intro i hi
        exact hmono i (by simp [Nat.testBit_or, hi])
      · intro st hst i hsi
        rcases List.mem_cons.mp hst with rfl | hst'
        · rw [hb] at hsi
          injection hsi with hji
          subst hji
          have h1 : (1 <<< j).testBit j = true := by
            simp [Nat.testBit_shiftLeft, Nat.sub_self]
          refine hmono j ?_
          simp [Nat.testBit_or, h1]
        · exact hmem st hst' i hsi

/-- A minimal builder whose create info lists an unrecognized
dynamic-state category. -/
def dyn_err_builder : Builder :=
  ⟨⟨[]⟩, ⟨[], ⟨[], [], none⟩, 0, false, none, [], [],
    ⟨false, false, .fill, 0, false, false, 0, 0, 0, 1, none⟩,
    ⟨1, false, none, false, false, false, []⟩, dummy_ds_info, none,
    some [VkDynamicState.unrecognized 42]⟩,
   [], dummy_variant, 0, 0, false, 1, false, false, 0, [],
   VK_FORMAT_UNDEFINED, 0⟩

/-- C7: a listed dynamic-state category not recognized by this driver
generation makes the parse - and with it the whole build - fail with an
error, never silently ignored; on a successful parse every recognized
category's bit is set in the dynamic-state mask, so
tu_pipeline_static_state reports the category non-static and no baked
value is emitted for it. -/
theorem C7_unrecognized_dynamic_state_fatal
    (dyn : List VkDynamicState) (mask : Nat) (b : Builder)
    (garb_out garb_dst : Nat) :
    (tu_pipeline_builder_parse_dynamic (some dyn) = Except.error () ↔
      ∃ st ∈ dyn, dynamic_state_bit st = none) ∧
    (b.create_info.pDynamicStates = some dyn →
      (∃ st ∈ dyn, dynamic_state_bit st = none) →
      tu_pipeline_builder_build b garb_out garb_dst = Except.error ()) ∧
    (tu_pipeline_builder_parse_dynamic (some dyn) = Except.ok mask →
      ∀ st ∈ dyn, ∀ i, dynamic_state_bit st = some i →
        mask.testBit i = true ∧ tu_pipeline_static_state mask i = false) := by
  refine ⟨parse_dynamic_fold_error_iff dyn 0, ?_, ?_⟩
  · intro h1 h2
    have hpe : tu_pipeline_builder_parse_dynamic (some dyn) =
        Except.error () := (parse_dynamic_fold_error_iff dyn 0).mpr h2
    unfold tu_pipeline_builder_build
    rw [h1, hpe]
  · intro hok st hst i hsi
    have hbit := (parse_dynamic_fold_ok_bits dyn 0 mask hok).2 st hst i hsi
    refine ⟨hbit, ?_⟩
    unfold tu_pipeline_static_state
    simp [hbit]

/-- Witness for C7: a build whose create info lists an unrecognized
dynamic-state category fails, and a recognized line-width category sets
bit 2 of the mask, marking the category non-static. -/
theorem C7_witness :
    tu_pipeline_builder_build dyn_err_builder 0 0 = Except.error () ∧
    ((4 : Nat).testBit VK_DYNAMIC_STATE_LINE_WIDTH = true ∧
      tu_pipeline_static_state 4 VK_DYNAMIC_STATE_LINE_WIDTH = false) := by
  constructor
  · exact (C7_unrecognized_dynamic_state_fatal
      [VkDynamicState.unrecognized 42] 0 dyn_err_builder 0 0).2.1 rfl
      ⟨VkDynamicState.unrecognized 42, List.mem_cons_self _ _, rfl⟩
  · exact (C7_unrecognized_dynamic_state_fatal
      [VkDynamicState.lineWidth] 4 dyn_err_builder 0 0).2.2 rfl
      VkDynamicState.lineWidth (List.mem_cons_self _ _)
      VK_DYNAMIC_STATE_LINE_WIDTH rfl

/-! ## C4: written dwords versus precomputed capacity -/

/-- The viewport/scissor step fits its 18 + 3 dword draw states. -/
theorem parse_viewport_length_le (b : Builder) (mask : Nat) :
    (tu_pipeline_builder_parse_viewport b mask).length ≤ 21 := by
  unfold tu_pipeline_builder_parse_viewport
  have h1 : ∀ v : VkViewport, (tu6_emit_viewport v).length = 18 :=
    fun _ => rfl
  have h2 : ∀ s : VkRect2D, (tu6_emit_scissor s).length = 3 := fun _ => rfl
  split
  · simp
  · split <;> split <;> simp [h1, h2]

/-- The rasterization step fits its 9 + 2 + 4 dword draw states. -/
theorem parse_rasterization_length_le (b : Builder) (mask : Nat) :
    (tu_pipeline_builder_parse_rasterization b mask).length ≤ 15 := by
  unfold tu_pipeline_builder_parse_rasterization
  have h1 : ∀ g : GrasSuCntl, g.dword.length = 2 := fun _ => rfl
  have h2 : ∀ a c s : Rat, (tu6_emit_depth_bias a c s).length = 4 :=
    fun _ _ _ => rfl
  split <;> split <;> simp [h1, h2]

/-- The depth/stencil step fits its 6 + 3 + 2 + 2 + 2 dword draw states. -/
theorem parse_depth_stencil_length_le (b : Builder) (mask : Nat) :
    (tu_pipeline_builder_parse_depth_stencil b mask).length ≤ 15 := by
  unfold tu_pipeline_builder_parse_depth_stencil
  have h1 : ∀ d r, (tu6_emit_depth_control d r).length = 2 := fun _ _ => rfl
  have h2 : ∀ d, (tu6_emit_stencil_control d).length = 2 := fun _ => rfl
  split_ifs <;> simp [h1, h2]

/-- Per-attachment MRT controls emit exactly three dwords each. -/
theorem tu6_emit_rb_mrt_controls_length (bi : BlendStateCreateInfo)
    (fm : List VkFormat) :
    (tu6_emit_rb_mrt_controls bi fm).length = bi.pAttachments.length * 3 := by
  unfold tu6_emit_rb_mrt_controls
  rw [length_flatMap_const _ _ 3, List.enum_length]
  intro x _
  obtain ⟨i, att⟩ := x
  rfl

/-- A conditionally emitted piece is no longer than its emitted form. -/
theorem ite_length_le {c : Prop} [Decidable c] (l : List Dword) (k : Nat)
    (h : l.length ≤ k) : (if c then l else []).length ≤ k := by
  split
  · exact h
  · simp

/-- The per-attachment MRT controls fit `3 · MAX_RTS` dwords when the
attachment count respects `MAX_RTS = 8`. -/
theorem mrt_controls_piece_le (bi : BlendStateCreateInfo)
    (fm : List VkFormat) (h : bi.pAttachments.length ≤ 8) :
    (tu6_emit_rb_mrt_controls bi fm).length ≤ 24 := by
  rw [tu6_emit_rb_mrt_controls_length]
  omega

/-- The multisample/color-blend step fits its `3·attachments + 4 + 5 + 9`
dword draw states when the attachment count respects `MAX_RTS = 8`. -/
theorem parse_msblend_length_le (b : Builder) (mask : Nat)
    (hatt : (b.create_info.pColorBlendState.getD
      dummy_blend_info).pAttachments.length ≤ 8) :
    (tu_pipeline_builder_parse_multisample_and_color_blend b mask).length
      ≤ 42 := by
  unfold tu_pipeline_builder_parse_multisample_and_color_blend
  have h4 : ∀ m d ms, (tu6_emit_blend_control m d ms).length = 4 :=
    fun _ _ _ => rfl
  have h9 : ∀ o, (tu6_emit_sample_locations o).length ≤ 9 := by
    intro o
    cases o <;> simp [tu6_emit_sample_locations]
  split
  · simp
  · simp only [List.length_append]
    refine le_trans
      (Nat.add_le_add (Nat.add_le_add (Nat.add_le_add ?_ ?_) ?_) ?_)
      (show 24 + 4 + 5 + 9 ≤ 42 by norm_num)
    · refine mrt_controls_piece_le _ _ ?_
      split
      · exact hatt
      · simp [dummy_blend_info]
    · exact le_of_eq (h4 _ _ _)
    · exact ite_length_le _ 5 (by simp)
    · exact ite_length_le _ 9 (h9 _)

/-- The shader upload block is exactly as long as the shader binaries the
capacity accounts for. -/
theorem build_uploads_length (b : Builder) :
    (build_uploads b).length =
      ((List.range MESA_SHADER_STAGES).map fun i =>
        match b.variantAt i with
        | some v => v.sizedwords
        | none => 0).sum + b.binning_variant.sizedwords := by
  unfold build_uploads
  rw [List.length_append, List.length_flatMap, List.length_map]
  congr 1
  congr 1
  apply List.map_congr_left
  intro i _
  cases h : b.variantAt i
  · simp [h]
  · simp [h, Variant.sizedwords]

/-- Under the code's own sub-stream reservations (512 dwords per program
state, `MAX_VERTEX_ATTRIBS * 7 + 2 = 226` per vertex-input state,
`MAX_RTS = 8` attachments), the stream of a build fits the precomputed
capacity: the 2048-dword margin covers every fixed-function piece. -/
theorem build_stream_length_le (b : Builder)
    (mask garb_out garb_dst : Nat)
    (hprog : (build_prog b false garb_out garb_dst).length ≤ 512)
    (hprogb : (build_prog b true garb_out garb_dst).length ≤ 512)
    (hvi : (build_vi b).1.length ≤ 226)
    (hvib : (build_vi_binning b).1.length ≤ 226)
    (hatt : (b.create_info.pColorBlendState.getD
      dummy_blend_info).pAttachments.length ≤ 8) :
    (build_stream b mask garb_out garb_dst).length ≤
      tu_pipeline_allocate_cs_size b := by
  unfold build_stream tu_pipeline_allocate_cs_size
  simp only [List.length_append]
  rw [build_uploads_length b, tu6_emit_load_state_length]
  have h1 := parse_viewport_length_le b mask
  have h2 := parse_rasterization_length_le b mask
  have h3 := parse_depth_stencil_length_le b mask
  have h4 := parse_msblend_length_le b mask hatt
  omega

/-- A minimal rasterizer-discard builder with no dynamic states, no
descriptor sets, and no compiled variants (every stage falls back to the
zero variant). -/
def cs_builder : Builder :=
  ⟨⟨[]⟩, ⟨[], ⟨[], [], none⟩, 0, false, none, [], [],
    ⟨false, false, .fill, 0, false, false, 0, 0, 0, 1, none⟩,
    ⟨1, false, none, false, false, false, []⟩, dummy_ds_info, none, none⟩,
   [], dummy_variant, 0, 0, true, 1, false, false, 0, [],
   VK_FORMAT_UNDEFINED, 0⟩

set_option maxRecDepth 10000

/-- C4 counterexample: a concrete successful build writes 302 dwords while
its precomputed capacity is 2048 - the final cursor position does not equal
the capacity, because the allocation deliberately carries a 2048-dword
margin over the exactly-sized parts. -/
theorem C4_counterexample_cursor_below_capacity :
    ((tu_pipeline_builder_build cs_builder 0 0).map fun out =>
      (out.stream.length, out.capacity)) = Except.ok (302, 2048) ∧
    (302 : Nat) ≠ 2048 := ⟨rfl, by decide⟩

/-- C4 (amended): under the code's own sub-stream reservations (512 dwords
per program state, 226 per vertex-input state, at most `MAX_RTS = 8` blend
attachments), every successful build's final cursor position is at most
the precomputed capacity - the stream never overflows, but it may end
below the capacity, whose 2048-dword margin is slack by design. -/
theorem C4_build_within_capacity (b : Builder) (garb_out garb_dst : Nat)
    (out : BuildOutput)
    (hok : tu_pipeline_builder_build b garb_out garb_dst = Except.ok out)
    (hprog : (build_prog b false garb_out garb_dst).length ≤ 512)
    (hprogb : (build_prog b true garb_out garb_dst).length ≤ 512)
    (hvi : (build_vi b).1.length ≤ 226)
    (hvib : (build_vi_binning b).1.length ≤ 226)
    (hatt : (b.create_info.pColorBlendState.getD
      dummy_blend_info).pAttachments.length ≤ 8) :
    out.stream.length ≤ out.capacity := by
  unfold tu_pipeline_builder_build at hok
  cases hp : tu_pipeline_builder_parse_dynamic b.create_info.pDynamicStates
    with
  | error e =>
    rw [hp] at hok
    injection hok
  | ok mask =>
    rw [hp] at hok
    injection hok with h
    subst h
    exact build_stream_length_le b mask garb_out garb_dst hprog hprogb hvi
      hvib hatt

/-- Witness for C4: the minimal concrete build satisfies every reservation
bound, and its cursor stays within the capacity. -/
theorem C4_witness :
    (build_stream cs_builder 0 0 0).length ≤
      tu_pipeline_allocate_cs_size cs_builder :=
  C4_build_within_capacity cs_builder 0 0
    ⟨build_stream cs_builder 0 0 0, tu_pipeline_allocate_cs_size cs_builder⟩
    rfl (by decide) (by decide) (by decide) (by decide) (by decide)

/-! ## C8: dual-source-enable coherence -/

/-- The dual-source-enable argument position of the four registers that
carry it (`SP_FS_OUTPUT_CNTL0`, `RB_FS_OUTPUT_CNTL0`, `SP_BLEND_CNTL`,
`RB_BLEND_CNTL`); `none` for every other dword. -/
def Dword.dualSrcFlag : Dword → Option Int
  | .reg .spFsOutputCntl0 args => args.get? 3
  | .reg .rbFsOutputCntl0 args => args.get? 3
  | .reg .spBlendCntl args => args.get? 1
  | .reg .rbBlendCntl args => args.get? 3
  | _ => none

/-- A map whose image never carries the dual-source flag contributes
nothing to the extraction. -/
theorem dual_map_nil {α : Type} (l : List α) (g : α → Dword)
    (h : ∀ a, Dword.dualSrcFlag (g a) = none) :
    (l.map g).filterMap Dword.dualSrcFlag = [] := by
  induction l with
  | nil => rfl
  | cons a l ih => simp [List.filterMap_cons, h, ih]

/-- A flatMap whose pieces never carry the dual-source flag contributes
nothing to the extraction. -/
theorem dual_flatMap_nil {α : Type} (l : List α) (g : α → List Dword)
    (h : ∀ a, (g a).filterMap Dword.dualSrcFlag = []) :
    (l.flatMap g).filterMap Dword.dualSrcFlag = [] := by
  induction l with
  | nil => rfl
  | cons a l ih => simp [List.flatMap_cons, List.filterMap_append, h, ih]

/-- A fold that only appends flag-free chunks leaves the extraction of its
accumulated dword list unchanged. -/
theorem dual_foldl_chunks {α : Type} (l : List α)
    (g : List Dword × Nat → α → List Dword × Nat)
    (h : ∀ st a, ((g st a).1).filterMap Dword.dualSrcFlag =
      st.1.filterMap Dword.dualSrcFlag) :
    ∀ st, ((l.foldl g st).1).filterMap Dword.dualSrcFlag =
      st.1.filterMap Dword.dualSrcFlag := by
  induction l with
  | nil => intro st; rfl
  | cons a l ih =>
    intro st
    rw [List.foldl_cons, ih, h]

theorem dual_emit_qw (v : Nat) :
    (tu_cs_emit_qw v).filterMap Dword.dualSrcFlag = [] := rfl

theorem dual_emit_const (opcode base block offset size : Nat)
    (dwords : List Nat) :
    (tu6_emit_const opcode base block offset size dwords).filterMap
      Dword.dualSrcFlag = [] := by
  unfold tu6_emit_const
  simp [List.filterMap_append, List.filterMap_cons, Dword.dualSrcFlag,
    dual_map_nil]

theorem dual_link_map (producer consumer : Variant) (sb : Nat) :
    (tu6_emit_link_map producer consumer sb).filterMap Dword.dualSrcFlag
      = [] := by
  unfold tu6_emit_link_map
  dsimp only
  split
  · rfl
  · exact dual_emit_const _ _ _ _ _ _

theorem dual_xs_config (stage : Nat) (xs : Option Variant) (iova : Nat) :
    (tu6_emit_xs_config stage xs iova).filterMap Dword.dualSrcFlag = [] := by
  unfold tu6_emit_xs_config
  cases xs with
  | none => rfl
  | some v =>
    simp only [List.filterMap_append, List.filterMap_cons, Dword.dualSrcFlag,
      dual_emit_qw, List.append_nil, List.nil_append, List.append_assoc]
    split
    · rfl
    · simp [List.filterMap_cons, Dword.dualSrcFlag, dual_map_nil]

theorem dual_vs_system_values (vs : Variant) (hs ds gs : Option Variant)
    (primid : Bool) :
    (tu6_emit_vs_system_values vs hs ds gs primid).filterMap
      Dword.dualSrcFlag = [] := rfl

theorem dual_setup_streamout (v : Variant) (l : ShaderLinkage) :
    (tu6_setup_streamout v l).filterMap Dword.dualSrcFlag = [] := by
  unfold tu6_setup_streamout
  split
  · rfl
  · simp [List.filterMap_append, List.filterMap_cons, Dword.dualSrcFlag,
      dual_flatMap_nil]


/-- A two-branch conditional piece whose branches are both flag-free. -/
theorem dual_ite_nil {c : Prop} [Decidable c] (l1 l2 : List Dword)
    (h1 : l1.filterMap Dword.dualSrcFlag = [])
    (h2 : l2.filterMap Dword.dualSrcFlag = []) :
    (if c then l1 else l2).filterMap Dword.dualSrcFlag = [] := by
  split
  · exact h1
  · exact h2

theorem dual_link_block (last_shader : Variant) (gs fs : Option Variant)
    (go gd : Nat) :
    (tu6_emit_vpc_link_block last_shader gs fs go gd).filterMap
      Dword.dualSrcFlag = [] := by
  unfold tu6_emit_vpc_link_block
  simp [List.filterMap_append, List.filterMap_cons, Dword.dualSrcFlag,
    dual_setup_streamout, dual_map_nil]

theorem dual_hs_block (vs : Variant) (hs ds : Option Variant)
    (pcp : Nat) (wg : Bool) :
    (tu6_emit_vpc_hs_block vs hs ds pcp wg).filterMap Dword.dualSrcFlag
      = [] := by
  cases hs with
  | none => rfl
  | some h =>
    simp [tu6_emit_vpc_hs_block, List.filterMap_append,
      List.filterMap_cons, Dword.dualSrcFlag, dual_link_map]

theorem dual_gs_block (vs : Variant) (hs ds gs : Option Variant) :
    (tu6_emit_vpc_gs_block vs hs ds gs).filterMap Dword.dualSrcFlag
      = [] := by
  cases gs with
  | none => rfl
  | some g =>
    cases hs <;>
      simp [tu6_emit_vpc_gs_block, List.filterMap_append,
        List.filterMap_cons, Dword.dualSrcFlag, dual_link_map,
        dual_ite_nil]

theorem dual_emit_vpc (vs : Variant) (hs ds gs fs : Option Variant)
    (pcp : Nat) (wg : Bool) (go gd : Nat) :
    (tu6_emit_vpc vs hs ds gs fs pcp wg go gd).filterMap Dword.dualSrcFlag
      = [] := by
  unfold tu6_emit_vpc
  simp [List.filterMap_append, List.filterMap_cons, Dword.dualSrcFlag,
    dual_vs_system_values, dual_link_block, dual_hs_block, dual_gs_block]

theorem dual_varying_modes (fs : Option Variant) :
    (tu6_emit_vpc_varying_modes fs).filterMap Dword.dualSrcFlag = [] := rfl

theorem dual_fs_inputs (fs : Variant) :
    (tu6_emit_fs_inputs fs).filterMap Dword.dualSrcFlag = [] := by
  unfold tu6_emit_fs_inputs
  simp [List.filterMap_append, List.filterMap_cons, Dword.dualSrcFlag,
    dual_map_nil, dual_ite_nil]

theorem dual_fs_outputs (fs : Variant) (mrt : Nat) (d : Bool) (rc : Nat)
    (s8 : Bool) :
    (tu6_emit_fs_outputs fs mrt d rc s8).filterMap Dword.dualSrcFlag =
      [bit d, bit d] := by
  unfold tu6_emit_fs_outputs
  simp [List.filterMap_append, List.filterMap_cons, Dword.dualSrcFlag,
    dual_map_nil]

theorem dual_geom_tess_consts (vs : Variant) (hs ds gs : Option Variant)
    (cps : Nat) :
    (tu6_emit_geom_tess_consts vs hs ds gs cps).filterMap Dword.dualSrcFlag
      = [] := by
  cases hs <;> cases gs <;>
    simp [tu6_emit_geom_tess_consts, List.filterMap_append,
      dual_emit_const]

/-- Both program sub-streams carry the builder's dual-source-enable flag
exactly twice: in `SP_FS_OUTPUT_CNTL0` and in `RB_FS_OUTPUT_CNTL0`. -/
theorem dual_prog (b : Builder) (iova : Nat → Nat) (biova : Nat)
    (bp : Bool) (go gd : Nat) :
    (tu6_emit_program b iova biova bp go gd).filterMap Dword.dualSrcFlag =
      [bit b.use_dual_src_blend, bit b.use_dual_src_blend] := by
  unfold tu6_emit_program
  simp [List.filterMap_append, List.filterMap_cons, Dword.dualSrcFlag,
    dual_ite_nil, dual_xs_config, dual_flatMap_nil, dual_emit_vpc,
    dual_varying_modes, dual_fs_inputs, dual_fs_outputs,
    dual_geom_tess_consts]

theorem dual_uploads (b : Builder) :
    (build_uploads b).filterMap Dword.dualSrcFlag = [] := by
  unfold build_uploads
  rw [List.filterMap_append]
  rw [dual_flatMap_nil, dual_map_nil b.binning_variant.bin Dword.raw
    fun a => rfl, List.append_nil]
  intro i
  cases h : b.variantAt i <;> simp [h, dual_map_nil, Dword.dualSrcFlag]

/-- The attribute-decode loop only appends flag-free chunks. -/
theorem dual_vi_decode (vs : Variant) (info : VertexInputState)
    (bi : Nat) :
    ∀ (attrs : List VertexAttribute) (st : List Dword × Nat),
    ((tu6_vi_decode vs info bi attrs st).1).filterMap Dword.dualSrcFlag =
      st.1.filterMap Dword.dualSrcFlag := by
  intro attrs
  induction attrs with
  | nil => intro st; rfl
  | cons a l ih =>
    intro st
    rw [show tu6_vi_decode vs info bi (a :: l) st =
      tu6_vi_decode vs info bi l
        (match vs.inputs.find? fun inp =>
            (inp.slot + 2 ^ 32 - VERT_ATTRIB_GENERIC0) % 2 ^ 32 =
              a.location with
         | none => st
         | some inp =>
           (st.1 ++
            [.pkt4 .vfdDecodeInstr st.2 2,
             .reg .vfdDecodeInstr
               [(a.binding : Int), (a.offset : Int),
                bit (bi &&& (1 <<< a.binding) ≠ 0),
                (a.format.id : Int), 1, bit !a.format.isInt],
             .reg .vfdDecodeStepRate
               [(vertex_step_rate info a.binding : Int)],
             .pkt4 .vfdDestCntlInstr st.2 1,
             .reg .vfdDestCntlInstr
               [(inp.compmask : Int), (inp.regid : Int)]],
            st.2 + 1)) from rfl]
    rw [ih]
    cases h : vs.inputs.find? fun inp =>
        (inp.slot + 2 ^ 32 - VERT_ATTRIB_GENERIC0) % 2 ^ 32 =
          a.location with
    | none => rfl
    | some inp =>
      simp [List.filterMap_append, List.filterMap_cons, Dword.dualSrcFlag]

theorem dual_vertex_input (vs : Variant) (info : VertexInputState)
    (b0 : Nat) :
    ((tu6_emit_vertex_input vs info b0).1).filterMap Dword.dualSrcFlag
      = [] := by
  unfold tu6_emit_vertex_input
  dsimp only
  rw [List.filterMap_append, List.filterMap_append]
  rw [dual_flatMap_nil info.bindings
    (fun bnd => [Dword.pkt4 .vfdFetchStride bnd.binding 1,
      Dword.reg .vfdFetchStride [(bnd.stride : Int)]]) fun bnd => rfl,
    dual_vi_decode]
  simp [List.filterMap_cons, Dword.dualSrcFlag]

theorem dual_viewport (v : VkViewport) :
    (tu6_emit_viewport v).filterMap Dword.dualSrcFlag = [] := rfl

theorem dual_scissor (s : VkRect2D) :
    (tu6_emit_scissor s).filterMap Dword.dualSrcFlag = [] := rfl

theorem dual_parse_viewport (b : Builder) (mask : Nat) :
    (tu_pipeline_builder_parse_viewport b mask).filterMap Dword.dualSrcFlag
      = [] := by
  unfold tu_pipeline_builder_parse_viewport
  split
  · rfl
  · simp [List.filterMap_append, dual_ite_nil, dual_viewport, dual_scissor]

theorem dual_gras_su (g : GrasSuCntl) :
    g.dword.filterMap Dword.dualSrcFlag = [] := rfl

theorem dual_depth_bias (a c s : Rat) :
    (tu6_emit_depth_bias a c s).filterMap Dword.dualSrcFlag = [] := rfl

theorem dual_parse_rast (b : Builder) (mask : Nat) :
    (tu_pipeline_builder_parse_rasterization b mask).filterMap
      Dword.dualSrcFlag = [] := by
  unfold tu_pipeline_builder_parse_rasterization
  simp [List.filterMap_append, List.filterMap_cons, Dword.dualSrcFlag,
    dual_ite_nil, dual_gras_su, dual_depth_bias]

theorem dual_depth_control (d : DepthStencilStateCreateInfo)
    (r : RasterizationStateCreateInfo) :
    (tu6_emit_depth_control d r).filterMap Dword.dualSrcFlag = [] := rfl

theorem dual_stencil_control (d : DepthStencilStateCreateInfo) :
    (tu6_emit_stencil_control d).filterMap Dword.dualSrcFlag = [] := rfl

theorem dual_parse_ds (b : Builder) (mask : Nat) :
    (tu_pipeline_builder_parse_depth_stencil b mask).filterMap
      Dword.dualSrcFlag = [] := by
  unfold tu_pipeline_builder_parse_depth_stencil
  simp [List.filterMap_append, List.filterMap_cons, Dword.dualSrcFlag,
    dual_ite_nil, dual_depth_control, dual_stencil_control]

theorem dual_mrt_controls (bi : BlendStateCreateInfo)
    (fm : List VkFormat) :
    (tu6_emit_rb_mrt_controls bi fm).filterMap Dword.dualSrcFlag = [] := by
  unfold tu6_emit_rb_mrt_controls
  exact dual_flatMap_nil _ _ fun x => by obtain ⟨i, a⟩ := x; rfl

/-- Both blend-control registers carry the dual-source-enable flag. -/
theorem dual_blend_control (m : Nat) (d : Bool)
    (ms : MultisampleStateCreateInfo) :
    (tu6_emit_blend_control m d ms).filterMap Dword.dualSrcFlag =
      [bit d, bit d] := rfl

theorem dual_sample_locations (o : Option SampleLocationsInfo) :
    (tu6_emit_sample_locations o).filterMap Dword.dualSrcFlag = [] := by
  cases o <;> rfl

/-- With rasterization enabled, the multisample/color-blend step carries
the builder's dual-source flag exactly twice: in `SP_BLEND_CNTL` and in
`RB_BLEND_CNTL`. -/
theorem dual_msblend (b : Builder) (mask : Nat)
    (h : b.rasterizer_discard = false) :
    (tu_pipeline_builder_parse_multisample_and_color_blend b mask).filterMap
      Dword.dualSrcFlag =
      [bit b.use_dual_src_blend, bit b.use_dual_src_blend] := by
  unfold tu_pipeline_builder_parse_multisample_and_color_blend
  rw [if_neg (by simp [h])]
  simp [List.filterMap_append, List.filterMap_cons, Dword.dualSrcFlag,
    dual_mrt_controls, dual_blend_control, dual_ite_nil, dual_map_nil,
    dual_sample_locations]

theorem dual_emit_ls (opcode st sb base offset count : Nat) :
    (emit_load_state opcode st sb base offset count).filterMap
      Dword.dualSrcFlag = [] := rfl

theorem dual_load_binding (layout : PipelineLayout) (i : Nat)
    (bnd : BindingLayout) (compute : Bool) :
    (tu6_emit_load_state_binding layout i bnd compute).filterMap
      Dword.dualSrcFlag = [] := by
  unfold tu6_emit_load_state_binding
  dsimp only
  split
  · rfl
  · split <;>
      simp [List.filterMap_append, dual_emit_ls, dual_ite_nil,
        dual_flatMap_nil]

theorem dual_load_state (layout : PipelineLayout) (ads : Nat)
    (compute : Bool) :
    (tu6_emit_load_state layout ads compute).filterMap Dword.dualSrcFlag
      = [] := by
  unfold tu6_emit_load_state
  split
  · rfl
  · refine dual_flatMap_nil _ _ fun x => ?_
    obtain ⟨i, s⟩ := x
    dsimp only
    split
    · rfl
    · exact dual_flatMap_nil _ _ fun bb => dual_load_binding layout i bb
        compute

/-- One successful non-discard build's stream carries the dual-source flag
in exactly six dwords - `SP_FS_OUTPUT_CNTL0` and `RB_FS_OUTPUT_CNTL0` in
each of the two program states, `SP_BLEND_CNTL` and `RB_BLEND_CNTL` in the
blend draw state - each equal to the builder's single flag. -/
theorem dual_build_stream (b : Builder) (mask go gd : Nat)
    (h : b.rasterizer_discard = false) :
    (build_stream b mask go gd).filterMap Dword.dualSrcFlag =
      List.replicate 6 (bit b.use_dual_src_blend) := by
  unfold build_stream build_prog build_vi build_vi_binning
  simp [List.filterMap_append, dual_uploads, dual_prog, dual_vertex_input,
    dual_parse_viewport, dual_parse_rast, dual_parse_ds, dual_msblend, h,
    dual_load_state, List.replicate]

/-- C8: if any attachment's blend factors reference a dual-source factor,
the dual-source-enable bit is set in all six positions that carry it
(`SP_FS_OUTPUT_CNTL0` and `RB_FS_OUTPUT_CNTL0` in both program states,
`SP_BLEND_CNTL` and `RB_BLEND_CNTL`); if none does, it is clear in all
six: for a rasterizing pipeline the extraction of the flag positions of a
successful build's stream is six copies of the single
`tu_blend_state_is_dual_src` bit, which itself is set iff some attachment
references a dual-source factor. -/
theorem C8_dual_src_enable_coherent
    (ci : GraphicsPipelineCreateInfo) (sub : SubpassInfo)
    (variants : List (Option Variant)) (binning : Variant)
    (layout : PipelineLayout) (ads gpu garb_out garb_dst : Nat)
    (out : BuildOutput)
    (hnd : ci.pRasterizationState.rasterizerDiscardEnable = false)
    (hok : tu_pipeline_builder_build
      (tu_pipeline_builder_init_graphics ci sub variants binning layout ads
        gpu) garb_out garb_dst = Except.ok out) :
    out.stream.filterMap Dword.dualSrcFlag =
      List.replicate 6 (bit (tu_blend_state_is_dual_src
        ci.pColorBlendState)) ∧
    (tu_blend_state_is_dual_src ci.pColorBlendState = true ↔
      ∃ info, ci.pColorBlendState = some info ∧
        ∃ att ∈ info.pAttachments,
          (tu_blend_factor_is_dual_src att.srcColorBlendFactor ||
           tu_blend_factor_is_dual_src att.dstColorBlendFactor ||
           tu_blend_factor_is_dual_src att.srcAlphaBlendFactor ||
           tu_blend_factor_is_dual_src att.dstAlphaBlendFactor) = true) := by
  constructor
  · have hb1 : (tu_pipeline_builder_init_graphics ci sub variants binning
        layout ads gpu).rasterizer_discard = false := by
      simp only [tu_pipeline_builder_init_graphics]
      rw [if_neg (by simp [hnd])]
    have hb2 : (tu_pipeline_builder_init_graphics ci sub variants binning
        layout ads gpu).use_dual_src_blend =
        tu_blend_state_is_dual_src ci.pColorBlendState := by
      simp only [tu_pipeline_builder_init_graphics]
      rw [if_neg (by simp [hnd])]
    unfold tu_pipeline_builder_build at hok
    cases hp : tu_pipeline_builder_parse_dynamic
        (tu_pipeline_builder_init_graphics ci sub variants binning layout
          ads gpu).create_info.pDynamicStates with
    | error e =>
      rw [hp] at hok
      injection hok
    | ok mask =>
      rw [hp] at hok
      injection hok with hh
      subst hh
      show (build_stream
        (tu_pipeline_builder_init_graphics ci sub variants binning layout
          ads gpu) mask garb_out garb_dst).filterMap Dword.dualSrcFlag = _
      rw [dual_build_stream _ mask garb_out garb_dst hb1, hb2]
  · unfold tu_blend_state_is_dual_src
    cases hc : ci.pColorBlendState with
    | none => simp
    | some info => simp [List.any_eq_true]

/-- A create info with one attachment blending from `SRC1_COLOR` (a
dual-source factor) and rasterization enabled. -/
def C8ci : GraphicsPipelineCreateInfo :=
  ⟨[], ⟨[], [], none⟩, 0, false, none, [], [],
   ⟨false, false, .fill, 0, false, false, 0, 0, 0, 1, none⟩,
   ⟨1, false, none, false, false, false, []⟩, dummy_ds_info,
   some ⟨false, .clear,
     [⟨true, .src1Color, .zero, .add, .one, .zero, .add, 0xf⟩],
     [0, 0, 0, 0]⟩, none⟩

/-- The builder `tu_pipeline_builder_init_graphics` derives from `C8ci`
with an empty subpass. -/
def C8builder : Builder :=
  tu_pipeline_builder_init_graphics C8ci ⟨[], none⟩ [] dummy_variant ⟨[]⟩
    0 0

/-- Witness for C8: the concrete dual-source pipeline's build carries the
set flag in all six positions. -/
theorem C8_witness :
    (⟨build_stream C8builder 0 0 0,
      tu_pipeline_allocate_cs_size C8builder⟩ : BuildOutput).stream.filterMap
        Dword.dualSrcFlag =
      List.replicate 6 (bit (tu_blend_state_is_dual_src
        C8ci.pColorBlendState)) :=
  (C8_dual_src_enable_coherent C8ci ⟨[], none⟩ [] dummy_variant ⟨[]⟩ 0 0 0 0
    ⟨build_stream C8builder 0 0 0, tu_pipeline_allocate_cs_size C8builder⟩
    rfl rfl).1

/-! ## C9: stream contents depend on uninitialized stack memory -/

/-- C9: building twice from identical immutable inputs does not always
yield identical streams.  `tu6_emit_vpc` reads the local arrays
`sp_out[16]`/`sp_vpc_dst[8]` beyond the entries it initialized (it fills
`linkage.cnt` half-words but emits `DIV_ROUND_UP(linkage.cnt, 2)` whole
words), so the emitted words contain whatever was on the stack - modelled
by the `garb_out`/`garb_dst` parameters.  A minimal pipeline forces the
dummy single-component allocation, making `linkage.cnt = 1` (odd), and two
builds under different stack contents produce different streams. -/
theorem C9_stream_depends_on_uninitialized_stack :
    ∃ out1 out2 : BuildOutput,
      tu_pipeline_builder_build cs_builder 0 0 = Except.ok out1 ∧
      tu_pipeline_builder_build cs_builder 1 1 = Except.ok out2 ∧
      out1.stream ≠ out2.stream :=
  ⟨⟨build_stream cs_builder 0 0 0, tu_pipeline_allocate_cs_size cs_builder⟩,
   ⟨build_stream cs_builder 0 1 1, tu_pipeline_allocate_cs_size cs_builder⟩,
   rfl, rfl, by decide⟩
